import Mathlib

/-!
Verification of the inventory-consistent billing subsystem of the
TechClinc repair-shop backend (Cloudflare Workers + D1/SQLite).

The JavaScript handlers are shallowly embedded as pure Lean functions over
an explicit database state `DB` that mirrors the SQL schema
(`parts`, `accessories`, `repairs`, `repair_parts`, `accessory_sales`,
`bills`, `bill_items`).  Modelling conventions:

* SQL `DECIMAL(10,2)` money columns and JavaScript arithmetic on them are
  modelled with exact rationals (`Rat`); binary floating-point error is
  not modelled.
* SQL `INTEGER` quantity columns are modelled as `Int` (the schema has no
  `CHECK (quantity >= 0)` constraint, and negative values are storable).
* `AUTOINCREMENT` row ids and `created_at DATETIME DEFAULT
  CURRENT_TIMESTAMP` insertion order are both modelled by the strictly
  increasing counter `DB.nextId`; `ORDER BY created_at DESC LIMIT 1`
  over rows of one table is modelled as "matching row with the largest id".
* `SELECT ... WHERE id = ?` + `.first()` is `List.find?`;
  `UPDATE ... WHERE id = ?` maps over every row with that id.
* A D1 transaction that rolls back on a thrown JS error is modelled by
  returning the pre-transaction state.
* JavaScript truthiness checks such as `if (!quantity)` are modelled as
  `quantity = 0` (for numbers) and `s = ""` (for strings).
* Handler results are `ApiResult α × DB`: `createError(msg, status)`
  becomes `.err msg status` (default status 400), `createSuccess` becomes
  `.ok data`.
-/

namespace TechClinc

/-- Result of a request handler: `createSuccess` data or a
`createError` message with its HTTP status (`src/src/middleware/error.js`). -/
inductive ApiResult (α : Type) where
  | ok (data : α)
  | err (message : String) (status : Nat)
deriving DecidableEq

/-- `parts` table row (`schema.sql`): dual-priced stocked part. -/
structure Part where
  id : Nat
  quantity : Int
  repair_price : Rat
  sealing_price : Rat
deriving DecidableEq

/-- `accessories` table row (`schema.sql`). -/
structure Accessory where
  id : Nat
  name : String
  quantity : Int
  price : Rat
deriving DecidableEq

/-- `repairs` table row (fields the billing core reads). -/
structure Repair where
  id : Nat
  customer_id : Nat
  status : String
deriving DecidableEq

/-- `repair_parts` table row: a part usage recorded against a repair. -/
structure RepairPart where
  id : Nat
  repair_id : Nat
  part_id : Nat
  quantity_used : Int
  pricing_mode : String
  unit_price : Rat
  total_price : Rat
deriving DecidableEq

/-- `accessory_sales` table row. -/
structure AccessorySale where
  id : Nat
  accessory_id : Nat
  quantity_sold : Int
  unit_price : Rat
  total_price : Rat
  sold_by : Nat
deriving DecidableEq

/-- `bills` table row (the generated bill number, a timestamp-plus-random
token, is not needed by any claim and is not modelled). -/
structure Bill where
  id : Nat
  repair_id : Option Nat
  customer_id : Nat
  subtotal : Rat
  tax_amount : Rat
  total_amount : Rat
  payment_status : String
  created_by : Nat
deriving DecidableEq

/-- `bill_items` table row. -/
structure BillItem where
  id : Nat
  bill_id : Nat
  item_type : String
  item_id : Nat
  quantity : Int
  unit_price : Rat
  total_price : Rat
  pricing_mode : Option String
deriving DecidableEq

/-- The D1 database state: one list per table (insertion order), plus the
monotonic id/timestamp counter. `customers` only needs ids (the billing
core merely joins on their existence). -/
structure DB where
  customers : List Nat
  parts : List Part
  accessories : List Accessory
  repairs : List Repair
  repair_parts : List RepairPart
  accessory_sales : List AccessorySale
  bills : List Bill
  bill_items : List BillItem
  nextId : Nat
deriving DecidableEq

/-- `SELECT * FROM accessories WHERE id = ?` followed by `.first()`. -/
def findAccessory (db : DB) (i : Nat) : Option Accessory :=
  db.accessories.find? (fun a => a.id == i)

/-- `SELECT * FROM parts WHERE id = ?` followed by `.first()`. -/
def findPart (db : DB) (i : Nat) : Option Part :=
  db.parts.find? (fun p => p.id == i)

/-- `SELECT * FROM repairs WHERE id = ?` followed by `.first()`. -/
def findRepair (db : DB) (i : Nat) : Option Repair :=
  db.repairs.find? (fun r => r.id == i)

/-- `UPDATE accessories SET quantity = <f quantity> WHERE id = ?`. -/
def updateAccQty (l : List Accessory) (i : Nat) (f : Int → Int) : List Accessory :=
  l.map (fun a => if a.id == i then { a with quantity := f a.quantity } else a)

/-- `UPDATE parts SET quantity = <f quantity> WHERE id = ?`. -/
def updatePartQty (l : List Part) (i : Nat) (f : Int → Int) : List Part :=
  l.map (fun p => if p.id == i then { p with quantity := f p.quantity } else p)

/-- POST `/accessories/:id/sell` (`src/src/index.js` lines 589-638,
identically `src/src/routes/customers.js` lines 407-470): validates the
payload (`!quantity || !unit_price || quantity <= 0`), looks the accessory
up, checks sufficiency, then in one transaction inserts an
`accessory_sales` row with `total_price = quantity * unit_price` and runs
`UPDATE accessories SET quantity = quantity - ?`. -/
def sellAccessory (db : DB) (accessoryId : Nat) (quantity : Int)
    (unit_price : Rat) (userId : Nat) : ApiResult AccessorySale × DB :=
  if quantity = 0 ∨ unit_price = 0 ∨ quantity ≤ 0 then
    (.err "Valid quantity and unit price are required" 400, db)
  else
    match findAccessory db accessoryId with
    | none => (.err "Accessory not found" 404, db)
    | some a =>
      if a.quantity < quantity then
        (.err "Insufficient stock" 400, db)
      else
        let sale : AccessorySale :=
          { id := db.nextId
            accessory_id := accessoryId
            quantity_sold := quantity
            unit_price := unit_price
            total_price := (quantity : Rat) * unit_price
            sold_by := userId }
        (.ok sale,
          { db with
              accessory_sales := db.accessory_sales ++ [sale]
              accessories := updateAccQty db.accessories accessoryId (fun q => q - quantity)
              nextId := db.nextId + 1 })

/-- The quantity update each `operation` value performs in the
PATCH `/:id/quantity` handlers: `add` is `quantity + ?`, `subtract` is
`GREATEST(0, quantity - ?)`, `set` is `?`; anything else is rejected. -/
def adjustFn (operation : String) (amt : Int) : Option (Int → Int) :=
  if operation = "add" then some (fun q => q + amt)
  else if operation = "subtract" then some (fun q => max 0 (q - amt))
  else if operation = "set" then some (fun _ => amt)
  else none

/-- PATCH `/accessories/:id/quantity` (`src/src/index.js` lines 558-587,
identically `src/src/routes/customers.js` lines 369-404): validates
`!quantity || !operation`, selects the UPDATE by `operation`, runs it
(touching nothing when the id is absent), then re-reads the row and
returns 404 if it does not exist. -/
def updateAccessoryQuantity (db : DB) (accessoryId : Nat) (quantity : Int)
    (operation : String) : ApiResult Accessory × DB :=
  if quantity = 0 ∨ operation = "" then
    (.err "Quantity and operation are required" 400, db)
  else
    match adjustFn operation quantity with
    | none => (.err "Invalid operation. Use: add, subtract, or set" 400, db)
    | some f =>
      let db' := { db with accessories := updateAccQty db.accessories accessoryId f }
      match findAccessory db' accessoryId with
      | none => (.err "Accessory not found" 404, db')
      | some a => (.ok a, db')

/-- PATCH `/parts/:id/quantity` (`src/src/index.js` lines 405-437): same
shape as the accessory version, over the `parts` table. -/
def updatePartQuantity (db : DB) (partId : Nat) (quantity : Int)
    (operation : String) : ApiResult Part × DB :=
  if quantity = 0 ∨ operation = "" then
    (.err "Quantity and operation are required" 400, db)
  else
    match adjustFn operation quantity with
    | none => (.err "Invalid operation. Use: add, subtract, or set" 400, db)
    | some f =>
      let db' := { db with parts := updatePartQty db.parts partId f }
      match findPart db' partId with
      | none => (.err "Part not found" 404, db')
      | some p => (.ok p, db')

/-- POST `/repairs/:id/parts` (`src/src/routes/auth.js` lines 905-981):
validates the payload and the pricing mode, requires the repair and the
part to exist and the part's stock to cover `quantity_used`, snapshots the
unit price of the selected pricing mode, then in one transaction inserts a
`repair_parts` row and debits the part's quantity. -/
def addRepairPart (db : DB) (repairId : Nat) (part_id : Nat)
    (quantity_used : Int) (pricing_mode : String) : ApiResult RepairPart × DB :=
  if part_id = 0 ∨ quantity_used = 0 ∨ pricing_mode = "" then
    (.err "Part ID, quantity used, and pricing mode are required" 400, db)
  else if ¬ (pricing_mode = "repair" ∨ pricing_mode = "seal") then
    (.err "Invalid pricing mode. Use: repair or seal" 400, db)
  else
    match findRepair db repairId with
    | none => (.err "Repair not found" 404, db)
    | some _ =>
      match findPart db part_id with
      | none => (.err "Part not found" 404, db)
      | some part =>
        if part.quantity < quantity_used then
          (.err "Insufficient part stock" 400, db)
        else
          let unitPrice := if pricing_mode = "repair" then part.repair_price else part.sealing_price
          let usage : RepairPart :=
            { id := db.nextId
              repair_id := repairId
              part_id := part_id
              quantity_used := quantity_used
              pricing_mode := pricing_mode
              unit_price := unitPrice
              total_price := (quantity_used : Rat) * unitPrice }
          (.ok usage,
            { db with
                repair_parts := db.repair_parts ++ [usage]
                parts := updatePartQty db.parts part_id (fun q => q - quantity_used)
                nextId := db.nextId + 1 })

/-- `SELECT * FROM repair_parts WHERE repair_id = ? AND part_id = ?
ORDER BY created_at DESC LIMIT 1`: the matching row with the largest id
(ids are assigned in insertion order, so the largest id is the most
recently created row). -/
def moreRecent (best : Option RepairPart) (rp : RepairPart) : Option RepairPart :=
  match best with
  | none => some rp
  | some b => if b.id ≤ rp.id then some rp else some b

/-- `SELECT * FROM repair_parts WHERE repair_id = ? AND part_id = ?
ORDER BY created_at DESC LIMIT 1` (see `moreRecent`): the matching row
with the largest id. -/
def latestRepairPart (l : List RepairPart) (repairId partId : Nat) : Option RepairPart :=
  (l.filter (fun rp => rp.repair_id == repairId && rp.part_id == partId)).foldl moreRecent none

/-- DELETE `/repairs/:id/parts/:part_id` (`src/src/routes/auth.js` lines
984-1029): looks up the most recent matching usage, then in one
transaction deletes exactly that row (`WHERE repair_id = ? AND part_id = ?
AND id = ?`) and credits its `quantity_used` back to the part. -/
def removeRepairPart (db : DB) (repairId partId : Nat) : ApiResult Unit × DB :=
  match latestRepairPart db.repair_parts repairId partId with
  | none => (.err "Part not found in repair" 404, db)
  | some rp =>
    (.ok (),
      { db with
          repair_parts := db.repair_parts.filter
            (fun r => ¬ (r.repair_id == repairId && r.part_id == partId && r.id == rp.id))
          parts := updatePartQty db.parts partId (fun q => q + rp.quantity_used) })

/-- DELETE `/repairs/:id` (`src/src/routes/auth.js` lines 1032-1083):
refuses when a bill references the repair; otherwise, in one transaction,
credits every usage's `quantity_used` back to its part, deletes the
usages, then deletes the repair. -/
def deleteRepair (db : DB) (repairId : Nat) : ApiResult Unit × DB :=
  if db.bills.any (fun b => b.repair_id == some repairId) then
    (.err "Cannot delete repair with associated bills" 400, db)
  else
    let usages := db.repair_parts.filter (fun rp => rp.repair_id == repairId)
    (.ok (),
      { db with
          parts := usages.foldl
            (fun ps rp => updatePartQty ps rp.part_id (fun q => q + rp.quantity_used)) db.parts
          repair_parts := db.repair_parts.filter (fun rp => ¬ rp.repair_id == repairId)
          repairs := db.repairs.filter (fun r => ¬ r.id == repairId) })

/-- `SELECT r.* FROM repairs r JOIN customers c ON r.customer_id = c.id
WHERE r.id = ?` + `.first()`: the repair row, present only when its
customer also exists. -/
def findRepairWithCustomer (db : DB) (repairId : Nat) : Option Repair :=
  match findRepair db repairId with
  | none => none
  | some r => if db.customers.contains r.customer_id then some r else none

/-- `SELECT rp.* FROM repair_parts rp JOIN parts p ON rp.part_id = p.id
WHERE rp.repair_id = ?`: the usages of a repair whose part row still
exists. -/
def repairPartsOf (db : DB) (repairId : Nat) : List RepairPart :=
  db.repair_parts.filter
    (fun rp => rp.repair_id == repairId && db.parts.any (fun p => p.id == rp.part_id))

/-- `SELECT id FROM bills WHERE repair_id = ?` + `.first()` is some row. -/
def hasBillFor (db : DB) (repairId : Nat) : Bool :=
  db.bills.any (fun b => b.repair_id == some repairId)

/-- The body of POST `/bills/from-repair/:repair_id` (`src/src/routes/auth.js`
lines 305-410) given the repair id the handler resolved from the request:
requires the repair (joined with its customer) to exist and be completed,
no existing bill for it, and at least one recorded usage; computes
`subtotal = Σ usage.total_price`, `tax = subtotal * (tax_rate/100)`,
`total = subtotal + tax` (no rounding anywhere), then in one transaction
inserts the bill and one `part` bill item per usage. -/
def generateBillFromRepairResolved (db : DB) (repairId : Nat) (tax_rate : Rat)
    (userId : Nat) : ApiResult Bill × DB :=
  match findRepairWithCustomer db repairId with
  | none => (.err "Repair not found" 404, db)
  | some repair =>
    if repair.status ≠ "completed" then
      (.err "Cannot generate bill for incomplete repair" 400, db)
    else if hasBillFor db repairId then
      (.err "Bill already exists for this repair" 400, db)
    else
      let repairParts := repairPartsOf db repairId
      if repairParts = [] then
        (.err "No parts found for this repair" 400, db)
      else
        let subtotal := (repairParts.map (fun rp => rp.total_price)).sum
        let taxAmount := subtotal * (tax_rate / 100)
        let totalAmount := subtotal + taxAmount
        let bill : Bill :=
          { id := db.nextId
            repair_id := some repairId
            customer_id := repair.customer_id
            subtotal := subtotal
            tax_amount := taxAmount
            total_amount := totalAmount
            payment_status := "pending"
            created_by := userId }
        let items := (repairParts.enum.map (fun p =>
          { id := db.nextId + 1 + p.1
            bill_id := db.nextId
            item_type := "part"
            item_id := p.2.part_id
            quantity := p.2.quantity_used
            unit_price := p.2.unit_price
            total_price := p.2.total_price
            pricing_mode := some p.2.pricing_mode : BillItem }))
        (.ok bill,
          { db with
              bills := db.bills ++ [bill]
              bill_items := db.bill_items ++ items
              nextId := db.nextId + 1 + repairParts.length })

/-- The slice of an incoming request the bills handler reads for routing
data: `request.params`, which is `undefined` (`none`) unless some code
assigned it. -/
structure BillsRequest where
  params : Option (List (String × String))

/-- What `Router.handle` (`src/src/utils/router.js` lines 49-96) leaves in
`request.params` when it invokes a matched handler: it passes the request
through unmodified and no code in the repository ever assigns
`request.params`, so handlers always see `undefined`. -/
def routerBoundParams : Option (List (String × String)) := none

/-- POST `/bills/from-repair/:repair_id` as actually reachable through the
router (`src/src/routes/auth.js` lines 305-410): the handler's first line
is `const repairId = request.params.id`.  When `request.params` is
`undefined` the property access throws a TypeError, which the handler's
outer catch (line 406-409) turns into `createError('Failed to generate
bill', 500)` before any query runs.  When params exist but hold no `id`
key, D1 refuses to bind `undefined`, throwing with the same outcome.
Otherwise the body runs on the extracted id. -/
def generateBillFromRepairEndpoint (db : DB) (req : BillsRequest) (tax_rate : Rat)
    (userId : Nat) : ApiResult Bill × DB :=
  match req.params with
  | none => (.err "Failed to generate bill" 500, db)
  | some ps =>
    match ps.lookup "id" with
    | none => (.err "Failed to generate bill" 500, db)
    | some s => generateBillFromRepairResolved db (s.toNat?.getD 0) tax_rate userId

/-- One line of the accessory-cart bill request body. -/
structure CartItem where
  accessory_id : Nat
  quantity : Int
deriving DecidableEq

/-- The pre-check loop of POST `/bills/accessories` (`src/src/routes/auth.js`
lines 430-443): walks the cart in order and returns the first error
(missing accessory or insufficient stock), if any. -/
def cartPrecheck (db : DB) : List CartItem → Option (ApiResult Bill × DB)
  | [] => none
  | it :: rest =>
    match findAccessory db it.accessory_id with
    | none => some (.err ("Accessory with ID " ++ toString it.accessory_id ++ " not found") 400, db)
    | some a =>
      if a.quantity < it.quantity then
        some (.err ("Insufficient stock for " ++ a.name) 400, db)
      else
        cartPrecheck db rest

/-- The subtotal loop of POST `/bills/accessories` (lines 445-452):
`subtotal += accessory.price * item.quantity` per line, re-reading each
accessory from the `accessories` table; `none` models the JS TypeError on
a missing accessory. -/
def cartSubtotal (accs : List Accessory) : List CartItem → Option Rat
  | [] => some 0
  | it :: rest =>
    match accs.find? (fun a => a.id == it.accessory_id) with
    | none => none
    | some a =>
      match cartSubtotal accs rest with
      | none => none
      | some s => some (a.price * (it.quantity : Rat) + s)

/-- The per-line mutation loop of POST `/bills/accessories` (lines 479-515):
for each cart line, re-reads the accessory, inserts a bill item and an
`accessory_sales` row at its current price, and debits its quantity
(`UPDATE accessories SET quantity = quantity - ?` — no re-check here).
`none` models a thrown JS error, which rolls the transaction back. -/
def cartMutateStep (billId userId : Nat) (db : DB) (it : CartItem) : Option DB :=
  match findAccessory db it.accessory_id with
  | none => none
  | some a =>
    let item : BillItem :=
      { id := db.nextId
        bill_id := billId
        item_type := "accessory"
        item_id := it.accessory_id
        quantity := it.quantity
        unit_price := a.price
        total_price := a.price * (it.quantity : Rat)
        pricing_mode := none }
    let sale : AccessorySale :=
      { id := db.nextId + 1
        accessory_id := it.accessory_id
        quantity_sold := it.quantity
        unit_price := a.price
        total_price := a.price * (it.quantity : Rat)
        sold_by := userId }
    some { db with
            bill_items := db.bill_items ++ [item]
            accessory_sales := db.accessory_sales ++ [sale]
            accessories := updateAccQty db.accessories it.accessory_id (fun q => q - it.quantity)
            nextId := db.nextId + 2 }

/-- Runs `cartMutateStep` over the whole cart in order, stopping (and
rolling back, in the handler) at the first failure. -/
def cartMutate (billId userId : Nat) : DB → List CartItem → Option DB
  | db, [] => some db
  | db, it :: rest =>
    match cartMutateStep billId userId db it with
    | none => none
    | some db' => cartMutate billId userId db' rest

/-- POST `/bills/accessories` (`src/src/routes/auth.js` lines 413-537):
validates the payload and the customer, pre-checks the whole cart before
any mutation, computes `subtotal = Σ price * quantity` from canonical
accessory prices, `tax = subtotal * (tax_rate/100)` and
`total = subtotal + tax` with no rounding, then in one transaction
creates the bill and, per line, a bill item, a stock debit and an
`accessory_sales` row. -/
def createAccessoryBill (db : DB) (customer_id : Nat) (items : List CartItem)
    (tax_rate : Rat) (userId : Nat) : ApiResult Bill × DB :=
  if customer_id = 0 ∨ items = [] then
    (.err "Customer ID and items array are required" 400, db)
  else if ¬ db.customers.contains customer_id then
    (.err "Customer not found" 404, db)
  else
    match cartPrecheck db items with
    | some e => e
    | none =>
      match cartSubtotal db.accessories items with
      | none => (.err "Failed to create accessory bill" 500, db)
      | some subtotal =>
        let taxAmount := subtotal * (tax_rate / 100)
        let totalAmount := subtotal + taxAmount
        let bill : Bill :=
          { id := db.nextId
            repair_id := none
            customer_id := customer_id
            subtotal := subtotal
            tax_amount := taxAmount
            total_amount := totalAmount
            payment_status := "pending"
            created_by := userId }
        let db1 := { db with bills := db.bills ++ [bill], nextId := db.nextId + 1 }
        match cartMutate bill.id userId db1 items with
        | none => (.err "Failed to create accessory bill" 500, db)
        | some db2 => (.ok bill, db2)

/-- A stocked item: a row of `parts` or of `accessories`, named by id. -/
inductive ItemKey where
  | part (id : Nat)
  | acc (id : Nat)
deriving DecidableEq

/-- Quantity of the part row with a given id (`0` when absent). -/
def partQty (ps : List Part) (j : Nat) : Int :=
  ((ps.find? (fun p => p.id == j)).map Part.quantity).getD 0

/-- Quantity of the accessory row with a given id (`0` when absent). -/
def accQty (l : List Accessory) (j : Nat) : Int :=
  ((l.find? (fun a => a.id == j)).map Accessory.quantity).getD 0

/-- Current quantity of a stock item in the database. -/
def quantityOf (db : DB) : ItemKey → Int
  | .part j => partQty db.parts j
  | .acc j => accQty db.accessories j

/-- The stock-mutating operations named by the spec's inventory invariant:
part debits from `addRepairPart`, credits from `removeRepairPart` and
`deleteRepair`, accessory sale debits, and the administrative
add/subtract/set adjustments on both tables. -/
inductive StockOp where
  | addPart (repairId partId : Nat) (qty : Int) (mode : String)
  | removePart (repairId partId : Nat)
  | sell (accId : Nat) (qty : Int) (price : Rat) (userId : Nat)
  | delRepair (repairId : Nat)
  | adjustAcc (accId : Nat) (amt : Int) (operation : String)
  | adjustPart (partId : Nat) (amt : Int) (operation : String)
deriving DecidableEq

/-- Runs one stock-mutating handler and keeps the resulting state. -/
def applyStockOp (db : DB) : StockOp → DB
  | .addPart r p q m => (addRepairPart db r p q m).2
  | .removePart r p => (removeRepairPart db r p).2
  | .sell a q pr u => (sellAccessory db a q pr u).2
  | .delRepair r => (deleteRepair db r).2
  | .adjustAcc a amt op => (updateAccessoryQuantity db a amt op).2
  | .adjustPart p amt op => (updatePartQuantity db p amt op).2

/-- Runs a sequence of stock-mutating handlers in order. -/
def applyStockOps (db : DB) (ops : List StockOp) : DB :=
  ops.foldl applyStockOp db

/-- The signed stock delta an operation applies to one item, read off the
handlers' UPDATE statements: `0` on every rejected request and on items
the operation does not touch; `-qty` for successful debits; the recorded
usage's `quantity_used` for credits; and the adjustment's effective change
(`subtract` being floored at zero). -/
def stockOpDelta (db : DB) : StockOp → ItemKey → Int
  | .addPart r p q m, k =>
    if p = 0 ∨ q = 0 ∨ m = "" then 0
    else if ¬ (m = "repair" ∨ m = "seal") then 0
    else
      match findRepair db r with
      | none => 0
      | some _ =>
        match findPart db p with
        | none => 0
        | some part => if part.quantity < q then 0 else if k = .part p then -q else 0
  | .removePart r p, k =>
    match latestRepairPart db.repair_parts r p with
    | none => 0
    | some rp =>
      if k = .part p ∧ (findPart db p).isSome then rp.quantity_used else 0
  | .sell a q pr _, k =>
    if q = 0 ∨ pr = 0 ∨ q ≤ 0 then 0
    else
      match findAccessory db a with
      | none => 0
      | some acc => if acc.quantity < q then 0 else if k = .acc a then -q else 0
  | .delRepair r, k =>
    if db.bills.any (fun b => b.repair_id == some r) then 0
    else
      match k with
      | .acc _ => 0
      | .part p =>
        if (findPart db p).isSome then
          ((db.repair_parts.filter (fun rp => rp.repair_id == r && rp.part_id == p)).map
            (fun rp => rp.quantity_used)).sum
        else 0
  | .adjustAcc a amt op, k =>
    if amt = 0 ∨ op = "" then 0
    else
      match adjustFn op amt with
      | none => 0
      | some f =>
        if k = .acc a then
          match findAccessory db a with
          | none => 0
          | some acc => f acc.quantity - acc.quantity
        else 0
  | .adjustPart p amt op, k =>
    if amt = 0 ∨ op = "" then 0
    else
      match adjustFn op amt with
      | none => 0
      | some f =>
        if k = .part p then
          match findPart db p with
          | none => 0
          | some part => f part.quantity - part.quantity
        else 0

/-- The signed deltas applied along a whole operation sequence, each
computed in the state the operation actually ran in. -/
def stockDeltas (db : DB) (k : ItemKey) : List StockOp → Int
  | [] => 0
  | op :: rest => stockOpDelta db op k + stockDeltas (applyStockOp db op) k rest

/-- The inventory invariant: every stock item's quantity is non-negative,
and every recorded usage's `quantity_used` is non-negative (so that
crediting it back cannot drive stock negative). -/
def StockInv (db : DB) : Prop :=
  (∀ k, 0 ≤ quantityOf db k) ∧ ∀ rp ∈ db.repair_parts, 0 ≤ rp.quantity_used

/-- The argument restriction the handlers fail to enforce: adjustment
amounts (other than floored `subtract`) and added usage quantities must
not be negative. -/
def GoodStockOp : StockOp → Prop
  | .addPart _ _ q _ => 0 ≤ q
  | .adjustAcc _ amt op => op = "subtract" ∨ 0 ≤ amt
  | .adjustPart _ amt op => op = "subtract" ∨ 0 ≤ amt
  | _ => True

/-! ### Helper lemmas about row lookup and single-row UPDATEs -/

theorem find?_updatePartQty (ps : List Part) (i : Nat) (f : Int → Int) (j : Nat) :
    (updatePartQty ps i f).find? (fun p => p.id == j) =
      (ps.find? (fun p => p.id == j)).map
        (fun p => if p.id == i then { p with quantity := f p.quantity } else p) := by
  unfold updatePartQty
  rw [List.find?_map]
  have hpred : ((fun p => p.id == j) ∘ fun p =>
      if p.id == i then { p with quantity := f p.quantity } else p) =
        (fun p : Part => p.id == j) := by
    funext p
    by_cases h : p.id = i <;> simp [h]
  rw [hpred]

theorem find?_updateAccQty (l : List Accessory) (i : Nat) (f : Int → Int) (j : Nat) :
    (updateAccQty l i f).find? (fun a => a.id == j) =
      (l.find? (fun a => a.id == j)).map
        (fun a => if a.id == i then { a with quantity := f a.quantity } else a) := by
  unfold updateAccQty
  rw [List.find?_map]
  have hpred : ((fun a => a.id == j) ∘ fun a =>
      if a.id == i then { a with quantity := f a.quantity } else a) =
        (fun a : Accessory => a.id == j) := by
    funext a
    by_cases h : a.id = i <;> simp [h]
  rw [hpred]

theorem partQty_update (ps : List Part) (i : Nat) (f : Int → Int) (j : Nat) :
    partQty (updatePartQty ps i f) j =
      if j = i ∧ (ps.find? (fun p => p.id == j)).isSome then f (partQty ps j)
      else partQty ps j := by
  unfold partQty
  rw [find?_updatePartQty]
  cases h : ps.find? (fun p => p.id == j) with
  | none => simp [h]
  | some x =>
    have hx : x.id = j := by simpa using List.find?_some h
    by_cases hji : j = i <;> simp [h, hx, hji]

theorem accQty_update (l : List Accessory) (i : Nat) (f : Int → Int) (j : Nat) :
    accQty (updateAccQty l i f) j =
      if j = i ∧ (l.find? (fun a => a.id == j)).isSome then f (accQty l j)
      else accQty l j := by
  unfold accQty
  rw [find?_updateAccQty]
  cases h : l.find? (fun a => a.id == j) with
  | none => simp [h]
  | some x =>
    have hx : x.id = j := by simpa using List.find?_some h
    by_cases hji : j = i <;> simp [h, hx, hji]

theorem latestRepairPart_mem {l : List RepairPart} {r p : Nat} {rp : RepairPart}
    (h : latestRepairPart l r p = some rp) : rp ∈ l := by
  unfold latestRepairPart at h
  have aux : ∀ (m : List RepairPart) (acc : Option RepairPart),
      (∀ b, acc = some b → b ∈ l) → (∀ x ∈ m, x ∈ l) →
      ∀ b, m.foldl moreRecent acc = some b → b ∈ l := by
    intro m
    induction m with
    | nil => intro acc hacc _ b hb; exact hacc b hb
    | cons x xs ih =>
      intro acc hacc hm b hb
      refine ih _ ?_ (fun y hy => hm y (List.mem_cons_of_mem _ hy)) b hb
      intro c hc
      cases acc with
      | none =>
        have hx : x = c := Option.some.inj hc
        exact hx ▸ hm x (List.mem_cons_self x xs)
      | some a0 =>
        by_cases hle : a0.id ≤ x.id
        · have hx : x = c := by simpa [moreRecent, hle] using hc
          exact hx ▸ hm x (List.mem_cons_self x xs)
        · have ha0 : a0 = c := by simpa [moreRecent, hle] using hc
          exact hacc c (by rw [← ha0])
  exact aux _ none (by intro b hb; cases hb)
    (fun x hx => List.mem_of_mem_filter hx) rp h

theorem stockInv_of_forall (db : DB)
    (hp : ∀ p ∈ db.parts, 0 ≤ p.quantity)
    (ha : ∀ a ∈ db.accessories, 0 ≤ a.quantity)
    (hr : ∀ rp ∈ db.repair_parts, 0 ≤ rp.quantity_used) : StockInv db := by
  refine ⟨fun k => ?_, hr⟩
  cases k with
  | part j =>
    unfold quantityOf partQty
    cases h : db.parts.find? (fun p => p.id == j) with
    | none => simp [h]
    | some x => simpa [h] using hp x (List.mem_of_find?_eq_some h)
  | acc j =>
    unfold quantityOf accQty
    cases h : db.accessories.find? (fun a => a.id == j) with
    | none => simp [h]
    | some x => simpa [h] using ha x (List.mem_of_find?_eq_some h)

/-! ### Per-operation delta and invariant lemmas -/

theorem adjustAcc_quantity (db : DB) (a : Nat) (amt : Int) (op : String) (k : ItemKey) :
    quantityOf (applyStockOp db (.adjustAcc a amt op)) k =
      quantityOf db k + stockOpDelta db (.adjustAcc a amt op) k := by
  unfold applyStockOp updateAccessoryQuantity stockOpDelta
  by_cases hv : amt = 0 ∨ op = ""
  · simp [hv]
  · simp only [hv, if_false]
    cases hf : adjustFn op amt with
    | none => simp
    | some f =>
      have hsnd : (match findAccessory { db with accessories := updateAccQty db.accessories a f } a with
          | none => ((.err "Accessory not found" 404 : ApiResult Accessory),
              { db with accessories := updateAccQty db.accessories a f })
          | some x => (.ok x, { db with accessories := updateAccQty db.accessories a f })).2 =
            { db with accessories := updateAccQty db.accessories a f } := by
        cases findAccessory { db with accessories := updateAccQty db.accessories a f } a <;> rfl
      simp only [hsnd]
      cases k with
      | part j => simp [quantityOf]
      | acc j =>
        simp only [quantityOf]
        rw [accQty_update]
        by_cases hja : j = a
        · subst hja
          cases hfa : db.accessories.find? (fun x => x.id == j) with
          | none => simp [hfa, findAccessory, accQty]
          | some acc => simp [hfa, findAccessory, accQty]
        · simp [hja, ItemKey.acc.injEq]

theorem adjustPart_quantity (db : DB) (p : Nat) (amt : Int) (op : String) (k : ItemKey) :
    quantityOf (applyStockOp db (.adjustPart p amt op)) k =
      quantityOf db k + stockOpDelta db (.adjustPart p amt op) k := by
  unfold applyStockOp updatePartQuantity stockOpDelta
  by_cases hv : amt = 0 ∨ op = ""
  · simp [hv]
  · simp only [hv, if_false]
    cases hf : adjustFn op amt with
    | none => simp
    | some f =>
      have hsnd : (match findPart { db with parts := updatePartQty db.parts p f } p with
          | none => ((.err "Part not found" 404 : ApiResult Part),
              { db with parts := updatePartQty db.parts p f })
          | some x => (.ok x, { db with parts := updatePartQty db.parts p f })).2 =
            { db with parts := updatePartQty db.parts p f } := by
        cases findPart { db with parts := updatePartQty db.parts p f } p <;> rfl
      simp only [hsnd]
      cases k with
      | acc j => simp [quantityOf]
      | part j =>
        simp only [quantityOf]
        rw [partQty_update]
        by_cases hjp : j = p
        · subst hjp
          cases hfp : db.parts.find? (fun x => x.id == j) with
          | none => simp [hfp, findPart, partQty]
          | some part => simp [hfp, findPart, partQty]
        · simp [hjp, ItemKey.part.injEq]

theorem sell_quantity (db : DB) (a : Nat) (q : Int) (pr : Rat) (u : Nat) (k : ItemKey) :
    quantityOf (applyStockOp db (.sell a q pr u)) k =
      quantityOf db k + stockOpDelta db (.sell a q pr u) k := by
  unfold applyStockOp sellAccessory stockOpDelta
  by_cases hv : q = 0 ∨ pr = 0 ∨ q ≤ 0
  · simp [hv]
  · simp only [hv, if_false]
    cases hfa : findAccessory db a with
    | none => simp
    | some acc =>
      by_cases hins : acc.quantity < q
      · simp [hins]
      · simp only [hins, if_false]
        cases k with
        | part j => simp [quantityOf]
        | acc j =>
          simp only [quantityOf]
          rw [accQty_update]
          by_cases hja : j = a
          · subst hja
            have hfind : db.accessories.find? (fun x => x.id == j) = some acc := hfa
            simp only [hfind, Option.isSome_some, and_true, if_true, accQty,
              Option.map_some', Option.getD_some, ItemKey.acc.injEq, if_pos rfl]
            omega
          · simp [hja, ItemKey.acc.injEq]

theorem addPart_quantity (db : DB) (r p : Nat) (q : Int) (m : String) (k : ItemKey) :
    quantityOf (applyStockOp db (.addPart r p q m)) k =
      quantityOf db k + stockOpDelta db (.addPart r p q m) k := by
  unfold applyStockOp addRepairPart stockOpDelta
  by_cases hv : p = 0 ∨ q = 0 ∨ m = ""
  · simp [hv]
  · simp only [hv, if_false]
    by_cases hm : m = "repair" ∨ m = "seal"
    · have hcond : ¬¬(m = "repair" ∨ m = "seal") := not_not_intro hm
      simp only [if_neg hcond]
      cases hr : findRepair db r with
      | none => simp
      | some rep =>
        cases hfp : findPart db p with
        | none => simp
        | some part =>
          by_cases hins : part.quantity < q
          · simp [hins]
          · simp only [hins, if_false]
            cases k with
            | acc j => simp [quantityOf]
            | part j =>
              simp only [quantityOf]
              rw [partQty_update]
              by_cases hjp : j = p
              · subst hjp
                have hfind : db.parts.find? (fun x => x.id == j) = some part := hfp
                simp only [hfind, Option.isSome_some, and_true, if_true, partQty,
                  Option.map_some', Option.getD_some, ItemKey.part.injEq, if_pos rfl]
                omega
              · simp [hjp, ItemKey.part.injEq]
    · simp [hm]

theorem removePart_quantity (db : DB) (r p : Nat) (k : ItemKey) :
    quantityOf (applyStockOp db (.removePart r p)) k =
      quantityOf db k + stockOpDelta db (.removePart r p) k := by
  unfold applyStockOp removeRepairPart stockOpDelta
  cases hl : latestRepairPart db.repair_parts r p with
  | none => simp [hl]
  | some rp =>
    simp only [hl]
    cases k with
    | acc j => simp [quantityOf]
    | part j =>
      simp only [quantityOf]
      rw [partQty_update]
      by_cases hjp : j = p
      · subst hjp
        cases hfp : db.parts.find? (fun x => x.id == j) with
        | none => simp [hfp, findPart]
        | some part => simp [hfp, findPart]
      · simp [hjp, ItemKey.part.injEq]

theorem partQty_foldCredit (us : List RepairPart) (ps : List Part) (j : Nat) :
    partQty (us.foldl (fun acc rp => updatePartQty acc rp.part_id (fun q => q + rp.quantity_used)) ps) j =
      partQty ps j +
        (if (ps.find? (fun p => p.id == j)).isSome then
          ((us.filter (fun rp => rp.part_id == j)).map (fun rp => rp.quantity_used)).sum
        else 0) := by
  induction us generalizing ps with
  | nil => simp
  | cons rp us ih =>
    rw [List.foldl_cons, ih]
    have hiso : ((updatePartQty ps rp.part_id (fun q => q + rp.quantity_used)).find?
        (fun p => p.id == j)).isSome = (ps.find? (fun p => p.id == j)).isSome := by
      rw [find?_updatePartQty]
      cases ps.find? (fun p => p.id == j) <;> simp
    rw [partQty_update, hiso]
    by_cases hs : (ps.find? (fun p => p.id == j)).isSome
    · by_cases hj : j = rp.part_id
      · rw [if_pos ⟨hj, hs⟩, if_pos hs, if_pos hs,
          List.filter_cons_of_pos (by simp [hj]), List.map_cons, List.sum_cons]
        omega
      · rw [if_neg (fun h => hj h.1), if_pos hs, if_pos hs,
          List.filter_cons_of_neg (by simp; exact fun hh => hj hh.symm)]
    · rw [if_neg (fun h => hs h.2), if_neg hs, if_neg hs]

theorem delRepair_quantity (db : DB) (r : Nat) (k : ItemKey) :
    quantityOf (applyStockOp db (.delRepair r)) k =
      quantityOf db k + stockOpDelta db (.delRepair r) k := by
  unfold applyStockOp deleteRepair stockOpDelta
  cases hb : db.bills.any (fun b => b.repair_id == some r) with
  | true => simp [hb]
  | false =>
    simp only [hb, Bool.false_eq_true, if_false]
    cases k with
    | acc j => simp [quantityOf]
    | part j =>
      simp only [quantityOf]
      rw [partQty_foldCredit]
      have hfilters :
          (db.repair_parts.filter (fun rp => rp.repair_id == r)).filter
              (fun rp => rp.part_id == j) =
            db.repair_parts.filter (fun rp => rp.repair_id == r && rp.part_id == j) := by
        rw [List.filter_filter]
        exact List.filter_congr (fun a _ => by rw [Bool.and_comm])
      rw [hfilters]
      simp [findPart]

theorem quantityOf_applyStockOp (db : DB) (op : StockOp) (k : ItemKey) :
    quantityOf (applyStockOp db op) k = quantityOf db k + stockOpDelta db op k := by
  cases op with
  | addPart r p q m => exact addPart_quantity db r p q m k
  | removePart r p => exact removePart_quantity db r p k
  | sell a q pr u => exact sell_quantity db a q pr u k
  | delRepair r => exact delRepair_quantity db r k
  | adjustAcc a amt o => exact adjustAcc_quantity db a amt o k
  | adjustPart p amt o => exact adjustPart_quantity db p amt o k

theorem usages_applyStockOp (db : DB) (op : StockOp) (rp : RepairPart)
    (h : rp ∈ (applyStockOp db op).repair_parts) :
    rp ∈ db.repair_parts ∨ ∃ r p m, op = .addPart r p rp.quantity_used m := by
  cases op with
  | addPart r p q m =>
    simp only [applyStockOp] at h
    unfold addRepairPart at h
    by_cases hv : p = 0 ∨ q = 0 ∨ m = ""
    · rw [if_pos hv] at h; exact .inl h
    · rw [if_neg hv] at h
      by_cases hm : ¬(m = "repair" ∨ m = "seal")
      · rw [if_pos hm] at h; exact .inl h
      · rw [if_neg hm] at h
        cases hr : findRepair db r with
        | none => simp only [hr] at h; exact .inl h
        | some rep =>
          simp only [hr] at h
          cases hfp : findPart db p with
          | none => simp only [hfp] at h; exact .inl h
          | some part =>
            simp only [hfp] at h
            by_cases hins : part.quantity < q
            · rw [if_pos hins] at h; exact .inl h
            · rw [if_neg hins] at h
              simp only at h
              rcases List.mem_append.mp h with h' | h'
              · exact .inl h'
              · refine .inr ⟨r, p, m, ?_⟩
                have : rp.quantity_used = q := by
                  cases List.mem_singleton.mp h'; rfl
                rw [this]
  | removePart r p =>
    simp only [applyStockOp] at h
    unfold removeRepairPart at h
    cases hl : latestRepairPart db.repair_parts r p with
    | none => simp only [hl] at h; exact .inl h
    | some x =>
      simp only [hl] at h
      exact .inl (List.mem_of_mem_filter h)
  | sell a q pr u =>
    simp only [applyStockOp] at h
    unfold sellAccessory at h
    by_cases hv : q = 0 ∨ pr = 0 ∨ q ≤ 0
    · rw [if_pos hv] at h; exact .inl h
    · rw [if_neg hv] at h
      cases hfa : findAccessory db a with
      | none => simp only [hfa] at h; exact .inl h
      | some acc =>
        simp only [hfa] at h
        by_cases hins : acc.quantity < q
        · rw [if_pos hins] at h; exact .inl h
        · rw [if_neg hins] at h; exact .inl h
  | delRepair r =>
    simp only [applyStockOp] at h
    unfold deleteRepair at h
    cases hb : db.bills.any (fun b => b.repair_id == some r) with
    | true => simp only [hb, if_true] at h; exact .inl h
    | false =>
      simp only [hb, Bool.false_eq_true, if_false] at h
      exact .inl (List.mem_of_mem_filter h)
  | adjustAcc a amt o =>
    simp only [applyStockOp] at h
    unfold updateAccessoryQuantity at h
    by_cases hv : amt = 0 ∨ o = ""
    · rw [if_pos hv] at h; exact .inl h
    · rw [if_neg hv] at h
      cases hf : adjustFn o amt with
      | none => simp only [hf] at h; exact .inl h
      | some f =>
        simp only [hf] at h
        cases hfa : findAccessory { db with accessories := updateAccQty db.accessories a f } a <;>
          simp only [hfa] at h <;> exact .inl h
  | adjustPart p amt o =>
    simp only [applyStockOp] at h
    unfold updatePartQuantity at h
    by_cases hv : amt = 0 ∨ o = ""
    · rw [if_pos hv] at h; exact .inl h
    · rw [if_neg hv] at h
      cases hf : adjustFn o amt with
      | none => simp only [hf] at h; exact .inl h
      | some f =>
        simp only [hf] at h
        cases hfp : findPart { db with parts := updatePartQty db.parts p f } p <;>
          simp only [hfp] at h <;> exact .inl h

theorem stockInv_applyStockOp (db : DB) (op : StockOp)
    (hinv : StockInv db) (hg : GoodStockOp op) : StockInv (applyStockOp db op) := by
  obtain ⟨hq, hu⟩ := hinv
  constructor
  · intro k
    rw [quantityOf_applyStockOp]
    cases op with
    | addPart r p q m =>
      simp only [stockOpDelta]
      by_cases hv : p = 0 ∨ q = 0 ∨ m = ""
      · rw [if_pos hv]; simpa using hq k
      · rw [if_neg hv]
        by_cases hm : ¬(m = "repair" ∨ m = "seal")
        · rw [if_pos hm]; simpa using hq k
        · rw [if_neg hm]
          cases hr : findRepair db r with
          | none => simpa using hq k
          | some rep =>
            simp only
            cases hfp : findPart db p with
            | none => simpa using hq k
            | some part =>
              simp only
              by_cases hins : part.quantity < q
              · rw [if_pos hins]; simpa using hq k
              · rw [if_neg hins]
                by_cases hkp : k = .part p
                · subst hkp
                  rw [if_pos rfl]
                  have hqp : quantityOf db (.part p) = part.quantity := by
                    simp [quantityOf, partQty, show db.parts.find? (fun x => x.id == p) = some part from hfp]
                  rw [hqp]
                  omega
                · rw [if_neg hkp]; simpa using hq k
    | removePart r p =>
      simp only [stockOpDelta]
      cases hl : latestRepairPart db.repair_parts r p with
      | none => simpa using hq k
      | some rp =>
        simp only
        have hrp : 0 ≤ rp.quantity_used := hu rp (latestRepairPart_mem hl)
        by_cases hc : k = .part p ∧ (findPart db p).isSome
        · rw [if_pos hc]
          have := hq k
          omega
        · rw [if_neg hc]; simpa using hq k
    | sell a q pr u =>
      simp only [stockOpDelta]
      by_cases hv : q = 0 ∨ pr = 0 ∨ q ≤ 0
      · rw [if_pos hv]; simpa using hq k
      · rw [if_neg hv]
        cases hfa : findAccessory db a with
        | none => simpa using hq k
        | some acc =>
          simp only
          by_cases hins : acc.quantity < q
          · rw [if_pos hins]; simpa using hq k
          · rw [if_neg hins]
            by_cases hka : k = .acc a
            · subst hka
              rw [if_pos rfl]
              have hqa : quantityOf db (.acc a) = acc.quantity := by
                simp [quantityOf, accQty, show db.accessories.find? (fun x => x.id == a) = some acc from hfa]
              rw [hqa]
              omega
            · rw [if_neg hka]; simpa using hq k
    | delRepair r =>
      simp only [stockOpDelta]
      cases hb : db.bills.any (fun b => b.repair_id == some r) with
      | true => simp [hb]; simpa using hq k
      | false =>
        simp only [hb, Bool.false_eq_true, if_false]
        cases k with
        | acc j => simpa using hq (.acc j)
        | part j =>
          simp only
          by_cases hs : (findPart db j).isSome
          · rw [if_pos hs]
            have hsum : 0 ≤ ((db.repair_parts.filter
                (fun rp => rp.repair_id == r && rp.part_id == j)).map
                  (fun rp => rp.quantity_used)).sum := by
              apply List.sum_nonneg
              intro x hx
              simp only [List.mem_map] at hx
              obtain ⟨rp, hrpmem, rfl⟩ := hx
              exact hu rp (List.mem_of_mem_filter hrpmem)
            have := hq (.part j)
            omega
          · rw [if_neg hs]; simpa using hq (.part j)
    | adjustAcc a amt o =>
      simp only [stockOpDelta]
      by_cases hv : amt = 0 ∨ o = ""
      · rw [if_pos hv]; simpa using hq k
      · rw [if_neg hv]
        by_cases ho1 : o = "add"
        · have hf : adjustFn o amt = some (fun q => q + amt) := by simp [adjustFn, ho1]
          rw [hf]
          simp only
          have hamt : 0 ≤ amt := by
            rcases hg with hgs | hgn
            · rw [ho1] at hgs; exact absurd hgs (by decide)
            · exact hgn
          by_cases hk : k = .acc a
          · subst hk
            rw [if_pos rfl]
            cases hfa : findAccessory db a with
            | none => simpa using hq (.acc a)
            | some acc =>
              have hqa : quantityOf db (.acc a) = acc.quantity := by
                simp [quantityOf, accQty, show db.accessories.find? (fun x => x.id == a) = some acc from hfa]
              have h1 := hq (.acc a)
              rw [hqa] at h1
              rw [hqa]
              show 0 ≤ acc.quantity + (acc.quantity + amt - acc.quantity)
              omega
          · rw [if_neg hk]; simpa using hq k
        · by_cases ho2 : o = "subtract"
          · have hf : adjustFn o amt = some (fun q => max 0 (q - amt)) := by
              simp [adjustFn, ho1, ho2]
            rw [hf]
            simp only
            by_cases hk : k = .acc a
            · subst hk
              rw [if_pos rfl]
              cases hfa : findAccessory db a with
              | none => simpa using hq (.acc a)
              | some acc =>
                have hqa : quantityOf db (.acc a) = acc.quantity := by
                  simp [quantityOf, accQty, show db.accessories.find? (fun x => x.id == a) = some acc from hfa]
                rw [hqa]
                show 0 ≤ acc.quantity + (max 0 (acc.quantity - amt) - acc.quantity)
                have h0 : (0 : Int) ≤ max 0 (acc.quantity - amt) := le_max_left _ _
                omega
            · rw [if_neg hk]; simpa using hq k
          · by_cases ho3 : o = "set"
            · have hf : adjustFn o amt = some (fun _ => amt) := by
                simp [adjustFn, ho1, ho2, ho3]
              rw [hf]
              simp only
              have hamt : 0 ≤ amt := by
                rcases hg with hgs | hgn
                · exact absurd hgs ho2
                · exact hgn
              by_cases hk : k = .acc a
              · subst hk
                rw [if_pos rfl]
                cases hfa : findAccessory db a with
                | none => simpa using hq (.acc a)
                | some acc =>
                  have hqa : quantityOf db (.acc a) = acc.quantity := by
                    simp [quantityOf, accQty, show db.accessories.find? (fun x => x.id == a) = some acc from hfa]
                  rw [hqa]
                  show 0 ≤ acc.quantity + (amt - acc.quantity)
                  omega
              · rw [if_neg hk]; simpa using hq k
            · have hf : adjustFn o amt = none := by simp [adjustFn, ho1, ho2, ho3]
              rw [hf]
              simp only
              simpa using hq k
    | adjustPart p amt o =>
      simp only [stockOpDelta]
      by_cases hv : amt = 0 ∨ o = ""
      · rw [if_pos hv]; simpa using hq k
      · rw [if_neg hv]
        by_cases ho1 : o = "add"
        · have hf : adjustFn o amt = some (fun q => q + amt) := by simp [adjustFn, ho1]
          rw [hf]
          simp only
          have hamt : 0 ≤ amt := by
            rcases hg with hgs | hgn
            · rw [ho1] at hgs; exact absurd hgs (by decide)
            · exact hgn
          by_cases hk : k = .part p
          · subst hk
            rw [if_pos rfl]
            cases hfp : findPart db p with
            | none => simpa using hq (.part p)
            | some part =>
              have hqp : quantityOf db (.part p) = part.quantity := by
                simp [quantityOf, partQty, show db.parts.find? (fun x => x.id == p) = some part from hfp]
              have h1 := hq (.part p)
              rw [hqp] at h1
              rw [hqp]
              show 0 ≤ part.quantity + (part.quantity + amt - part.quantity)
              omega
          · rw [if_neg hk]; simpa using hq k
        · by_cases ho2 : o = "subtract"
          · have hf : adjustFn o amt = some (fun q => max 0 (q - amt)) := by
              simp [adjustFn, ho1, ho2]
            rw [hf]
            simp only
            by_cases hk : k = .part p
            · subst hk
              rw [if_pos rfl]
              cases hfp : findPart db p with
              | none => simpa using hq (.part p)
              | some part =>
                have hqp : quantityOf db (.part p) = part.quantity := by
                  simp [quantityOf, partQty, show db.parts.find? (fun x => x.id == p) = some part from hfp]
                rw [hqp]
                show 0 ≤ part.quantity + (max 0 (part.quantity - amt) - part.quantity)
                have h0 : (0 : Int) ≤ max 0 (part.quantity - amt) := le_max_left _ _
                omega
            · rw [if_neg hk]; simpa using hq k
          · by_cases ho3 : o = "set"
            · have hf : adjustFn o amt = some (fun _ => amt) := by
                simp [adjustFn, ho1, ho2, ho3]
              rw [hf]
              simp only
              have hamt : 0 ≤ amt := by
                rcases hg with hgs | hgn
                · exact absurd hgs ho2
                · exact hgn
              by_cases hk : k = .part p
              · subst hk
                rw [if_pos rfl]
                cases hfp : findPart db p with
                | none => simpa using hq (.part p)
                | some part =>
                  have hqp : quantityOf db (.part p) = part.quantity := by
                    simp [quantityOf, partQty, show db.parts.find? (fun x => x.id == p) = some part from hfp]
                  rw [hqp]
                  show 0 ≤ part.quantity + (amt - part.quantity)
                  omega
              · rw [if_neg hk]; simpa using hq k
            · have hf : adjustFn o amt = none := by simp [adjustFn, ho1, ho2, ho3]
              rw [hf]
              simp only
              simpa using hq k
  · intro rp hrp
    rcases usages_applyStockOp db op rp hrp with hmem | ⟨r, p, m, heq⟩
    · exact hu rp hmem
    · rw [heq] at hg
      exact hg

theorem stockInv_applyStockOps (db : DB) (ops : List StockOp)
    (hinv : StockInv db) (hg : ∀ op ∈ ops, GoodStockOp op) :
    StockInv (applyStockOps db ops) := by
  induction ops generalizing db with
  | nil => exact hinv
  | cons op rest ih =>
    exact ih (applyStockOp db op)
      (stockInv_applyStockOp db op hinv (hg op (List.mem_cons_self _ _)))
      (fun o ho => hg o (List.mem_cons_of_mem _ ho))

theorem quantityOf_applyStockOps (db : DB) (ops : List StockOp) (k : ItemKey) :
    quantityOf (applyStockOps db ops) k = quantityOf db k + stockDeltas db k ops := by
  induction ops generalizing db with
  | nil => simp [applyStockOps, stockDeltas]
  | cons op rest ih =>
    show quantityOf (applyStockOps (applyStockOp db op) rest) k = _
    rw [ih (applyStockOp db op), quantityOf_applyStockOp]
    show _ = quantityOf db k + (stockOpDelta db op k + stockDeltas (applyStockOp db op) k rest)
    omega

/-- Concrete one-accessory database used to exhibit the `set`-adjustment
counterexample: accessory 1 ("cable") holds 5 units at price 10. -/
def c1xDb : DB :=
  { customers := [1]
    parts := []
    accessories := [{ id := 1, name := "cable", quantity := 5, price := 10 }]
    repairs := []
    repair_parts := []
    accessory_sales := []
    bills := []
    bill_items := []
    nextId := 2 }

/-- C1 (counterexample): the claim "the resulting quantity is always >= 0"
fails as stated.  The quantity-adjustment handlers validate only
`!quantity || !operation`, so a `set` adjustment with value `-5` is
accepted and stored; starting from quantity 5 the resulting quantity is
`-5 < 0`. -/
theorem c1_counterexample :
    0 ≤ quantityOf c1xDb (.acc 1) ∧
    quantityOf (applyStockOps c1xDb [.adjustAcc 1 (-5) "set"]) (.acc 1) = -5 ∧
    ¬ 0 ≤ quantityOf (applyStockOps c1xDb [.adjustAcc 1 (-5) "set"]) (.acc 1) := by
  decide

/-- C1 (amended): for every stock item and every sequence of the
stock-mutating operations (addPart's debit, removePart's credit, accessory
sale debits, repair-deletion credits, and the add/subtract/set quantity
adjustments), PROVIDED every addPart quantity and every add/set adjustment
amount in the sequence is non-negative (the handlers accept negative
numbers unchecked, which the counterexample exploits), the resulting
quantity is always >= 0 and equals the initial quantity plus the signed
sum of the applied deltas (`subtract` contributing its floored applied
delta, `set` the difference it applies). -/
theorem c1_stock_invariant (db : DB) (ops : List StockOp)
    (hinv : StockInv db) (hg : ∀ op ∈ ops, GoodStockOp op) :
    StockInv (applyStockOps db ops) ∧
      ∀ k, quantityOf (applyStockOps db ops) k = quantityOf db k + stockDeltas db k ops :=
  ⟨stockInv_applyStockOps db ops hinv hg, fun k => quantityOf_applyStockOps db ops k⟩

/-- Small concrete database shared by several witnesses: one customer, one
part (quantity 10, prices 50/80), one accessory (quantity 20, price 15),
and one completed repair. -/
def baseDb : DB :=
  { customers := [1]
    parts := [{ id := 5, quantity := 10, repair_price := 50, sealing_price := 80 }]
    accessories := [{ id := 1, name := "cable", quantity := 20, price := 15 }]
    repairs := [{ id := 1, customer_id := 1, status := "completed" }]
    repair_parts := []
    accessory_sales := []
    bills := []
    bill_items := []
    nextId := 2 }

/-- Operation sequence for the C1 witness: a part debit, an accessory sale
debit, a floored subtract adjustment, and the part credit. -/
def c1wOps : List StockOp :=
  [.addPart 1 5 2 "repair", .sell 1 2 15 1, .adjustAcc 1 3 "subtract", .removePart 1 5]

/-- C1 (witness): the amended theorem applied to a concrete database and a
concrete four-operation sequence. -/
theorem c1_stock_invariant_witness :
    StockInv (applyStockOps baseDb c1wOps) ∧
      ∀ k, quantityOf (applyStockOps baseDb c1wOps) k =
        quantityOf baseDb k + stockDeltas baseDb k c1wOps :=
  c1_stock_invariant baseDb c1wOps
    (stockInv_of_forall baseDb (by decide) (by decide) (by decide))
    (by
      intro op hop
      simp only [c1wOps, List.mem_cons, List.not_mem_nil, or_false] at hop
      rcases hop with rfl | rfl | rfl | rfl <;> simp [GoodStockOp])

/-- C10: for every stock item (accessory or part) with a non-negative
current quantity and every quantity-adjustment request with operation
`subtract`, the resulting quantity is `max 0 (current - requested)` — the
`GREATEST(0, quantity - ?)` UPDATE floors the subtraction at zero and
never yields a negative quantity (when the requested amount is `0` the
handler rejects the request and leaves the quantity unchanged, which for a
non-negative quantity coincides with `max 0 (current - 0)`). -/
theorem c10_subtract_floored (db : DB) (amt : Int) :
    (∀ i a, findAccessory db i = some a → 0 ≤ a.quantity →
      quantityOf (updateAccessoryQuantity db i amt "subtract").2 (.acc i) =
        max 0 (a.quantity - amt) ∧
      0 ≤ quantityOf (updateAccessoryQuantity db i amt "subtract").2 (.acc i)) ∧
    (∀ i p, findPart db i = some p → 0 ≤ p.quantity →
      quantityOf (updatePartQuantity db i amt "subtract").2 (.part i) =
        max 0 (p.quantity - amt) ∧
      0 ≤ quantityOf (updatePartQuantity db i amt "subtract").2 (.part i)) := by
  constructor
  · intro i a hfind h0
    have hqa : quantityOf db (.acc i) = a.quantity := by
      simp [quantityOf, accQty, show db.accessories.find? (fun x => x.id == i) = some a from hfind]
    unfold updateAccessoryQuantity
    by_cases hz : amt = 0
    · have hv : amt = 0 ∨ ("subtract" : String) = "" := .inl hz
      rw [if_pos hv]
      subst hz
      constructor
      · rw [hqa]
        omega
      · rw [hqa]; exact h0
    · have hv : ¬(amt = 0 ∨ ("subtract" : String) = "") := by
        rintro (h | h)
        · exact hz h
        · exact absurd h (by decide)
      rw [if_neg hv]
      have hf : adjustFn "subtract" amt = some (fun q => max 0 (q - amt)) := by
        simp [adjustFn]
      simp only [hf]
      have hgoal : quantityOf
          { db with accessories := updateAccQty db.accessories i (fun q => max 0 (q - amt)) }
          (.acc i) = max 0 (a.quantity - amt) := by
        show accQty (updateAccQty db.accessories i (fun q => max 0 (q - amt))) i =
          max 0 (a.quantity - amt)
        rw [accQty_update]
        have hsome : (db.accessories.find? (fun x => x.id == i)).isSome := by
          rw [show db.accessories.find? (fun x => x.id == i) = some a from hfind]; rfl
        rw [if_pos ⟨rfl, hsome⟩]
        have : accQty db.accessories i = a.quantity := hqa
        rw [this]
      cases hfa : findAccessory
          { db with accessories := updateAccQty db.accessories i (fun q => max 0 (q - amt)) } i with
      | none => exact ⟨hgoal, hgoal ▸ le_max_left _ _⟩
      | some x => exact ⟨hgoal, hgoal ▸ le_max_left _ _⟩
  · intro i p hfind h0
    have hqp : quantityOf db (.part i) = p.quantity := by
      simp [quantityOf, partQty, show db.parts.find? (fun x => x.id == i) = some p from hfind]
    unfold updatePartQuantity
    by_cases hz : amt = 0
    · have hv : amt = 0 ∨ ("subtract" : String) = "" := .inl hz
      rw [if_pos hv]
      subst hz
      constructor
      · rw [hqp]
        omega
      · rw [hqp]; exact h0
    · have hv : ¬(amt = 0 ∨ ("subtract" : String) = "") := by
        rintro (h | h)
        · exact hz h
        · exact absurd h (by decide)
      rw [if_neg hv]
      have hf : adjustFn "subtract" amt = some (fun q => max 0 (q - amt)) := by
        simp [adjustFn]
      simp only [hf]
      have hgoal : quantityOf
          { db with parts := updatePartQty db.parts i (fun q => max 0 (q - amt)) }
          (.part i) = max 0 (p.quantity - amt) := by
        show partQty (updatePartQty db.parts i (fun q => max 0 (q - amt))) i =
          max 0 (p.quantity - amt)
        rw [partQty_update]
        have hsome : (db.parts.find? (fun x => x.id == i)).isSome := by
          rw [show db.parts.find? (fun x => x.id == i) = some p from hfind]; rfl
        rw [if_pos ⟨rfl, hsome⟩]
        have : partQty db.parts i = p.quantity := hqp
        rw [this]
      cases hfp : findPart
          { db with parts := updatePartQty db.parts i (fun q => max 0 (q - amt)) } i with
      | none => exact ⟨hgoal, hgoal ▸ le_max_left _ _⟩
      | some x => exact ⟨hgoal, hgoal ▸ le_max_left _ _⟩

/-- C10 (witness): subtracting 25 from accessory 1 (quantity 20) floors at
0, and subtracting 3 from part 5 (quantity 10) gives 7. -/
theorem c10_subtract_floored_witness :
    (quantityOf (updateAccessoryQuantity baseDb 1 25 "subtract").2 (.acc 1) =
        max 0 (20 - 25) ∧
      0 ≤ quantityOf (updateAccessoryQuantity baseDb 1 25 "subtract").2 (.acc 1)) ∧
    (quantityOf (updatePartQuantity baseDb 5 3 "subtract").2 (.part 5) =
        max 0 (10 - 3) ∧
      0 ≤ quantityOf (updatePartQuantity baseDb 5 3 "subtract").2 (.part 5)) :=
  ⟨(c10_subtract_floored baseDb 25).1 1
      { id := 1, name := "cable", quantity := 20, price := 15 } rfl (by decide),
   (c10_subtract_floored baseDb 3).2 5
      { id := 5, quantity := 10, repair_price := 50, sealing_price := 80 } rfl (by decide)⟩

/-- C2: for every well-formed accessory sale request (positive quantity,
non-zero unit price) against an existing accessory: if the requested
quantity exceeds the current quantity the operation fails with the
insufficient-stock error and the database is completely unchanged (no
sale record, no quantity change); otherwise it appends exactly one sale
record with `total_price = quantity * unit_price`, decreases the
accessory's quantity by exactly the quantity sold, and touches nothing
else. -/
theorem c2_sell (db : DB) (accId : Nat) (qty : Int) (price : Rat) (uid : Nat)
    (a : Accessory) (hfind : findAccessory db accId = some a)
    (hq : 0 < qty) (hp : price ≠ 0) :
    (a.quantity < qty →
      sellAccessory db accId qty price uid = (.err "Insufficient stock" 400, db)) ∧
    (qty ≤ a.quantity →
      sellAccessory db accId qty price uid =
        (.ok { id := db.nextId, accessory_id := accId, quantity_sold := qty,
               unit_price := price, total_price := (qty : Rat) * price, sold_by := uid },
         { db with
             accessory_sales := db.accessory_sales ++
               [{ id := db.nextId, accessory_id := accId, quantity_sold := qty,
                  unit_price := price, total_price := (qty : Rat) * price, sold_by := uid }]
             accessories := updateAccQty db.accessories accId (fun q => q - qty)
             nextId := db.nextId + 1 }) ∧
      quantityOf (sellAccessory db accId qty price uid).2 (.acc accId) = a.quantity - qty) := by
  have hv : ¬(qty = 0 ∨ price = 0 ∨ qty ≤ 0) := by
    rintro (h | h | h)
    · omega
    · exact hp h
    · omega
  constructor
  · intro hins
    unfold sellAccessory
    rw [if_neg hv]
    simp only [hfind]
    rw [if_pos hins]
  · intro hsuff
    have hins : ¬ a.quantity < qty := by omega
    have heq : sellAccessory db accId qty price uid =
        (.ok { id := db.nextId, accessory_id := accId, quantity_sold := qty,
               unit_price := price, total_price := (qty : Rat) * price, sold_by := uid },
         { db with
             accessory_sales := db.accessory_sales ++
               [{ id := db.nextId, accessory_id := accId, quantity_sold := qty,
                  unit_price := price, total_price := (qty : Rat) * price, sold_by := uid }]
             accessories := updateAccQty db.accessories accId (fun q => q - qty)
             nextId := db.nextId + 1 }) := by
      unfold sellAccessory
      rw [if_neg hv]
      simp only [hfind]
      rw [if_neg hins]
    refine ⟨heq, ?_⟩
    rw [heq]
    show accQty (updateAccQty db.accessories accId (fun q => q - qty)) accId = a.quantity - qty
    rw [accQty_update]
    have hsome : (db.accessories.find? (fun x => x.id == accId)).isSome := by
      rw [show db.accessories.find? (fun x => x.id == accId) = some a from hfind]; rfl
    rw [if_pos ⟨rfl, hsome⟩]
    have hqa : accQty db.accessories accId = a.quantity := by
      simp [accQty, show db.accessories.find? (fun x => x.id == accId) = some a from hfind]
    rw [hqa]

/-- C2 (witness): accessory 1 holds 20 at price 15; selling 2 at unit
price 15 yields a sale with total_price 30 and quantity 18; a subsequent
sale of 25 fails with the insufficient-stock error and the state is
unchanged, so the quantity remains 18. -/
theorem c2_sell_witness :
    (sellAccessory baseDb 1 2 15 1).1 =
      .ok { id := 2, accessory_id := 1, quantity_sold := 2,
            unit_price := 15, total_price := 30, sold_by := 1 } ∧
    quantityOf (sellAccessory baseDb 1 2 15 1).2 (.acc 1) = 18 ∧
    sellAccessory (sellAccessory baseDb 1 2 15 1).2 1 25 15 1 =
      (.err "Insufficient stock" 400, (sellAccessory baseDb 1 2 15 1).2) := by
  have h1 := (c2_sell baseDb 1 2 15 1
    { id := 1, name := "cable", quantity := 20, price := 15 } rfl (by decide) (by decide)).2
    (by decide)
  have h2 := (c2_sell (sellAccessory baseDb 1 2 15 1).2 1 25 15 1
    { id := 1, name := "cable", quantity := 18, price := 15 } (by decide)
    (by decide) (by decide)).1 (by decide)
  refine ⟨?_, ?_, h2⟩
  · rw [h1.1]
    norm_num [baseDb]
  · rw [h1.2]
    decide

/-- `SELECT * FROM bills WHERE repair_id = ?`: the bill rows referencing a
repair. -/
def billsFor (db : DB) (rid : Nat) : List Bill :=
  db.bills.filter (fun b => b.repair_id == some rid)

theorem cartMutate_bills (billId uid : Nat) :
    ∀ (items : List CartItem) (db db' : DB),
      cartMutate billId uid db items = some db' → db'.bills = db.bills := by
  intro items
  induction items with
  | nil =>
    intro db db' h
    cases h
    rfl
  | cons it rest ih =>
    intro db db' h
    unfold cartMutate at h
    cases hstep : cartMutateStep billId uid db it with
    | none => rw [hstep] at h; cases h
    | some db1 =>
      rw [hstep] at h
      have hstep' : db1.bills = db.bills := by
        unfold cartMutateStep at hstep
        cases hfa : findAccessory db it.accessory_id with
        | none => rw [hfa] at hstep; cases hstep
        | some a =>
          rw [hfa] at hstep
          cases hstep
          rfl
      rw [ih db1 db' h, hstep']

theorem cartPrecheck_some (db : DB) :
    ∀ (items : List CartItem) (e : ApiResult Bill × DB),
      cartPrecheck db items = some e → e.2 = db ∧ ∃ msg code, e.1 = .err msg code := by
  intro items
  induction items with
  | nil => intro e h; cases h
  | cons it rest ih =>
    intro e h
    unfold cartPrecheck at h
    cases hfa : findAccessory db it.accessory_id with
    | none =>
      simp only [hfa] at h
      cases h
      exact ⟨rfl, _, _, rfl⟩
    | some a =>
      simp only [hfa] at h
      by_cases hins : a.quantity < it.quantity
      · rw [if_pos hins] at h
        cases h
        exact ⟨rfl, _, _, rfl⟩
      · rw [if_neg hins] at h
        exact ih e h

theorem billsFor_createAccessoryBill (db : DB) (cid : Nat) (items : List CartItem)
    (tax : Rat) (uid : Nat) (rid : Nat) :
    billsFor ((createAccessoryBill db cid items tax uid).2) rid = billsFor db rid := by
  unfold createAccessoryBill
  by_cases hv : cid = 0 ∨ items = []
  · rw [if_pos hv]
  · rw [if_neg hv]
    by_cases hc : ¬ db.customers.contains cid
    · rw [if_pos hc]
    · rw [if_neg hc]
      cases hpre : cartPrecheck db items with
      | some e =>
        simp only [hpre]
        rw [(cartPrecheck_some db items e hpre).1]
      | none =>
        simp only [hpre]
        cases hsub : cartSubtotal db.accessories items with
        | none => simp only [hsub]
        | some s =>
          simp only [hsub]
          cases hmut : cartMutate db.nextId uid
              { db with
                  bills := db.bills ++
                    [{ id := db.nextId, repair_id := none, customer_id := cid,
                       subtotal := s, tax_amount := s * (tax / 100),
                       total_amount := s + s * (tax / 100),
                       payment_status := "pending", created_by := uid }]
                  nextId := db.nextId + 1 } items with
          | none => simp only [hmut]
          | some db2 =>
            simp only [hmut]
            show billsFor db2 rid = billsFor db rid
            unfold billsFor
            rw [cartMutate_bills db.nextId uid items _ db2 hmut]
            simp

theorem billsFor_generateBill (db : DB) (rid2 : Nat) (tax : Rat) (uid : Nat) (rid : Nat)
    (h1 : (billsFor db rid).length ≤ 1) :
    (billsFor ((generateBillFromRepairResolved db rid2 tax uid).2) rid).length ≤ 1 := by
  unfold generateBillFromRepairResolved
  cases hr : findRepairWithCustomer db rid2 with
  | none => exact h1
  | some r =>
    simp only
    by_cases hst : r.status ≠ "completed"
    · rw [if_pos hst]; exact h1
    · rw [if_neg hst]
      by_cases hbf : hasBillFor db rid2
      · rw [if_pos hbf]; exact h1
      · rw [if_neg hbf]
        by_cases hemp : repairPartsOf db rid2 = []
        · rw [if_pos hemp]; exact h1
        · rw [if_neg hemp]
          unfold billsFor at h1 ⊢
          simp only [List.filter_append]
          by_cases hr2 : rid = rid2
          · subst hr2
            have hnil : db.bills.filter (fun b => b.repair_id == some rid) = [] := by
              rw [List.filter_eq_nil_iff]
              intro b hbmem hbeq
              exact hbf (List.any_eq_true.mpr ⟨b, hbmem, hbeq⟩)
            rw [hnil]
            simp
          · have hknil : ∀ bl : Bill, bl.repair_id = some rid2 →
                ([bl].filter (fun b => b.repair_id == some rid)) = [] := by
              intro bl hbl
              simp only [List.filter_cons, hbl]
              have : ¬ rid2 = rid := fun hh => hr2 hh.symm
              simp [this]
            rw [hknil _ rfl, List.append_nil]
            exact h1

/-- C3: for every repair that already has a bill, a second bill-generation
attempt for that repair fails and creates no new bill (in particular,
whenever the repair still exists and is still `completed` it fails with
the already-billed error), and neither bill-construction path can bring a
repair's bill count above one — so at most one bill ever references a
given repair. -/
theorem c3_already_billed (db : DB) (rid : Nat) (tax : Rat) (uid : Nat)
    (hb : billsFor db rid ≠ []) :
    ((generateBillFromRepairResolved db rid tax uid).2 = db ∧
      ∃ msg code, (generateBillFromRepairResolved db rid tax uid).1 = .err msg code) ∧
    (∀ r, findRepairWithCustomer db rid = some r → r.status = "completed" →
      generateBillFromRepairResolved db rid tax uid =
        (.err "Bill already exists for this repair" 400, db)) ∧
    (∀ rid2 tax2 uid2, (billsFor db rid).length ≤ 1 →
      (billsFor ((generateBillFromRepairResolved db rid2 tax2 uid2).2) rid).length ≤ 1) ∧
    (∀ cid items tax2 uid2, (billsFor db rid).length ≤ 1 →
      (billsFor ((createAccessoryBill db cid items tax2 uid2).2) rid).length ≤ 1) := by
  have hbf : hasBillFor db rid := by
    unfold hasBillFor
    rcases List.exists_mem_of_ne_nil _ hb with ⟨b, hbmem⟩
    have hmem := List.mem_of_mem_filter hbmem
    have hpred := List.of_mem_filter hbmem
    exact List.any_eq_true.mpr ⟨b, hmem, hpred⟩
  refine ⟨?_, ?_, ?_, ?_⟩
  · unfold generateBillFromRepairResolved
    cases hr : findRepairWithCustomer db rid with
    | none => exact ⟨rfl, _, _, rfl⟩
    | some r =>
      simp only
      by_cases hst : r.status ≠ "completed"
      · rw [if_pos hst]
        exact ⟨rfl, _, _, rfl⟩
      · rw [if_neg hst, if_pos hbf]
        exact ⟨rfl, _, _, rfl⟩
  · intro r hr hst
    unfold generateBillFromRepairResolved
    rw [hr]
    simp only
    rw [if_neg (by rw [hst]; exact not_not_intro rfl), if_pos hbf]
  · intro rid2 tax2 uid2 h1
    exact billsFor_generateBill db rid2 tax2 uid2 rid h1
  · intro cid items tax2 uid2 h1
    rw [billsFor_createAccessoryBill]
    exact h1

/-- Concrete database for the C3 witness: `baseDb` plus an existing bill
for repair 1. -/
def billedDb : DB :=
  { baseDb with
      bills := [{ id := 2, repair_id := some 1, customer_id := 1, subtotal := 100,
                  tax_amount := 0, total_amount := 100, payment_status := "pending",
                  created_by := 1 }]
      nextId := 3 }

/-- C3 (witness): on a completed, already-billed repair the second
bill-generation attempt fails with the already-billed error, leaves the
state unchanged, and both construction paths preserve the at-most-one
bill-per-repair bound. -/
theorem c3_already_billed_witness :
    ((generateBillFromRepairResolved billedDb 1 0 1).2 = billedDb ∧
      ∃ msg code, (generateBillFromRepairResolved billedDb 1 0 1).1 = .err msg code) ∧
    (∀ r, findRepairWithCustomer billedDb 1 = some r → r.status = "completed" →
      generateBillFromRepairResolved billedDb 1 0 1 =
        (.err "Bill already exists for this repair" 400, billedDb)) ∧
    (∀ rid2 tax2 uid2, (billsFor billedDb 1).length ≤ 1 →
      (billsFor ((generateBillFromRepairResolved billedDb rid2 tax2 uid2).2) 1).length ≤ 1) ∧
    (∀ cid items tax2 uid2, (billsFor billedDb 1).length ≤ 1 →
      (billsFor ((createAccessoryBill billedDb cid items tax2 uid2).2) 1).length ≤ 1) :=
  c3_already_billed billedDb 1 0 1 (by decide)

/-- C9: for every completed repair (with an existing customer) that has no
bill yet and no recorded part usages, generating a bill from that repair
fails with the empty-bill error ("No parts found for this repair") and
the database is unchanged — no bill is created. -/
theorem c9_empty_bill (db : DB) (rid : Nat) (tax : Rat) (uid : Nat) (r : Repair)
    (hr : findRepairWithCustomer db rid = some r) (hst : r.status = "completed")
    (hnb : ¬ hasBillFor db rid) (hnp : repairPartsOf db rid = []) :
    generateBillFromRepairResolved db rid tax uid =
      (.err "No parts found for this repair" 400, db) := by
  unfold generateBillFromRepairResolved
  rw [hr]
  simp only
  rw [if_neg (by rw [hst]; exact not_not_intro rfl), if_neg hnb, if_pos hnp]

/-- C9 (witness): repair 1 in `baseDb` is completed, unbilled and has no
recorded usages; bill generation fails with the empty-bill error. -/
theorem c9_empty_bill_witness :
    generateBillFromRepairResolved baseDb 1 (17/2) 1 =
      (.err "No parts found for this repair" 400, baseDb) :=
  c9_empty_bill baseDb 1 (17/2) 1
    { id := 1, customer_id := 1, status := "completed" } rfl rfl (by decide) rfl

/-- Concrete database on which the from-repair bill endpoint would succeed
if a repair id ever reached the handler body: a completed repair with one
recorded usage and no existing bill. -/
def repairReadyDb : DB :=
  { baseDb with
      repair_parts := [{ id := 2, repair_id := 1, part_id := 5, quantity_used := 2,
                         pricing_mode := "repair", unit_price := 50, total_price := 100 }]
      nextId := 3 }

/-- C6 (counterexample): the claim says the endpoint "returns the
repair-not-found error for every input".  It does not: `request.params`
is undefined, so `request.params.id` throws before any query runs and the
handler's catch returns the generic `Failed to generate bill` 500 error,
which differs from the repair-not-found error — even on a database where
the repair exists, is completed, has a usage and has no bill. -/
theorem c6_counterexample :
    generateBillFromRepairEndpoint repairReadyDb { params := routerBoundParams } (17/2) 1 =
      (.err "Failed to generate bill" 500, repairReadyDb) ∧
    (.err "Failed to generate bill" 500 : ApiResult Bill) ≠ .err "Repair not found" 404 :=
  ⟨rfl, by decide⟩

/-- C6 (amended): the handler reads `request.params.id` although the route
declares `:repair_id`, and the router never binds any path parameters at
all; since `request.params` is undefined, the property access throws and
the handler's catch returns the generic failure (500) for every input, so
no bill is ever created by this endpoint. -/
theorem c6_param_bug (db : DB) (tax_rate : Rat) (uid : Nat) :
    generateBillFromRepairEndpoint db { params := routerBoundParams } tax_rate uid =
      (.err "Failed to generate bill" 500, db) ∧
    (generateBillFromRepairEndpoint db { params := routerBoundParams } tax_rate uid).2.bills =
      db.bills :=
  ⟨rfl, rfl⟩

theorem foldl_moreRecent_append (l : List RepairPart) (w : RepairPart)
    (acc : Option RepairPart) :
    (l ++ [w]).foldl moreRecent acc = moreRecent (l.foldl moreRecent acc) w := by
  rw [List.foldl_append]
  rfl

theorem latestRepairPart_append_fresh (l : List RepairPart) (w : RepairPart) (rid pid : Nat)
    (hw1 : w.repair_id = rid) (hw2 : w.part_id = pid)
    (hfresh : ∀ rp ∈ l, rp.id < w.id) :
    latestRepairPart (l ++ [w]) rid pid = some w := by
  unfold latestRepairPart
  rw [List.filter_append]
  have hfw : [w].filter (fun rp => rp.repair_id == rid && rp.part_id == pid) = [w] := by
    simp [hw1, hw2]
  rw [hfw, foldl_moreRecent_append]
  cases hacc : (l.filter (fun rp => rp.repair_id == rid && rp.part_id == pid)).foldl
      moreRecent none with
  | none => rfl
  | some b =>
    have hbmem : b ∈ l :=
      latestRepairPart_mem (show latestRepairPart l rid pid = some b from hacc)
    have hble : b.id ≤ w.id := le_of_lt (hfresh b hbmem)
    simp [moreRecent, hble]

theorem isSome_find?_updatePartQty (ps : List Part) (i : Nat) (f : Int → Int) (j : Nat) :
    ((updatePartQty ps i f).find? (fun p => p.id == j)).isSome =
      (ps.find? (fun p => p.id == j)).isSome := by
  rw [find?_updatePartQty]
  cases ps.find? (fun p => p.id == j) <;> rfl

theorem addRepairPart_ok (db : DB) (rid pid : Nat) (qty : Int) (mode : String)
    (u : RepairPart) (db1 : DB)
    (h : addRepairPart db rid pid qty mode = (.ok u, db1)) :
    ∃ part, findPart db pid = some part ∧ ¬ part.quantity < qty ∧
      u = { id := db.nextId, repair_id := rid, part_id := pid, quantity_used := qty,
            pricing_mode := mode,
            unit_price := if mode = "repair" then part.repair_price else part.sealing_price,
            total_price := (qty : Rat) *
              (if mode = "repair" then part.repair_price else part.sealing_price) } ∧
      db1 = { db with
          repair_parts := db.repair_parts ++ [u]
          parts := updatePartQty db.parts pid (fun q => q - qty)
          nextId := db.nextId + 1 } := by
  unfold addRepairPart at h
  by_cases hv : pid = 0 ∨ qty = 0 ∨ mode = ""
  · rw [if_pos hv] at h
    exact absurd h (by simp)
  · rw [if_neg hv] at h
    by_cases hm : ¬(mode = "repair" ∨ mode = "seal")
    · rw [if_pos hm] at h
      exact absurd h (by simp)
    · rw [if_neg hm] at h
      cases hr : findRepair db rid with
      | none =>
        simp only [hr] at h
        exact absurd h (by simp)
      | some rep =>
        simp only [hr] at h
        cases hfp : findPart db pid with
        | none =>
          simp only [hfp] at h
          exact absurd h (by simp)
        | some part =>
          simp only [hfp] at h
          by_cases hins : part.quantity < qty
          · rw [if_pos hins] at h
            exact absurd h (by simp)
          · rw [if_neg hins] at h
            have h1 := congrArg Prod.fst h
            have h2 := congrArg Prod.snd h
            simp only at h1 h2
            have hu := ApiResult.ok.inj h1
            refine ⟨part, rfl, hins, hu.symm, ?_⟩
            rw [← hu]
            exact h2.symm

/-- C7: when an `addRepairPart` with a fresh id space succeeds, the usage
it recorded is the most recent matching usage; `removeRepairPart` then
deletes exactly that usage record and credits back exactly the quantity
that usage had debited, so the whole round trip returns the inventory (and
the usage table) to its prior state. -/
theorem c7_remove_roundtrip (db : DB) (rid pid : Nat) (qty : Int) (mode : String)
    (u : RepairPart) (db1 : DB)
    (hfresh : ∀ rp ∈ db.repair_parts, rp.id < db.nextId)
    (hadd : addRepairPart db rid pid qty mode = (.ok u, db1)) :
    latestRepairPart db1.repair_parts rid pid = some u ∧
    u.quantity_used = qty ∧
    (removeRepairPart db1 rid pid).1 = .ok () ∧
    (removeRepairPart db1 rid pid).2.repair_parts = db.repair_parts ∧
    (∀ k, quantityOf (removeRepairPart db1 rid pid).2 k = quantityOf db k) := by
  obtain ⟨part, hfp, hins, hu, hdb1⟩ := addRepairPart_ok db rid pid qty mode u db1 hadd
  have hlatest : latestRepairPart db1.repair_parts rid pid = some u := by
    rw [hdb1]
    exact latestRepairPart_append_fresh db.repair_parts u rid pid
      (by rw [hu]) (by rw [hu]) (by rw [hu]; exact hfresh)
  have hqty : u.quantity_used = qty := by rw [hu]
  have hremove : removeRepairPart db1 rid pid =
      (.ok (), { db1 with
          repair_parts := db1.repair_parts.filter
            (fun x => ¬ (x.repair_id == rid && x.part_id == pid && x.id == u.id))
          parts := updatePartQty db1.parts pid (fun q => q + u.quantity_used) }) := by
    unfold removeRepairPart
    rw [hlatest]
  have hfilter : db1.repair_parts.filter
      (fun x => ¬ (x.repair_id == rid && x.part_id == pid && x.id == u.id)) =
        db.repair_parts := by
    rw [hdb1]
    show (db.repair_parts ++ [u]).filter _ = db.repair_parts
    rw [List.filter_append]
    have hl : db.repair_parts.filter
        (fun x => ¬ (x.repair_id == rid && x.part_id == pid && x.id == u.id)) =
          db.repair_parts := by
      rw [List.filter_eq_self]
      intro x hx
      have hid : x.id ≠ u.id := by
        rw [hu]
        exact Nat.ne_of_lt (hfresh x hx)
      simp [hid]
    have hr : [u].filter
        (fun x => ¬ (x.repair_id == rid && x.part_id == pid && x.id == u.id)) = [] := by
      have h1 : u.repair_id = rid := by rw [hu]
      have h2 : u.part_id = pid := by rw [hu]
      simp [h1, h2]
    rw [hl, hr, List.append_nil]
  refine ⟨hlatest, hqty, by rw [hremove], by rw [hremove]; exact hfilter, ?_⟩
  intro k
  rw [hremove]
  cases k with
  | acc j =>
    show accQty db1.accessories j = accQty db.accessories j
    rw [hdb1]
  | part j =>
    show partQty (updatePartQty db1.parts pid (fun q => q + u.quantity_used)) j =
      partQty db.parts j
    rw [hdb1, hqty]
    show partQty (updatePartQty (updatePartQty db.parts pid (fun q => q - qty)) pid
      (fun q => q + qty)) j = partQty db.parts j
    rw [partQty_update, isSome_find?_updatePartQty, partQty_update]
    by_cases hj : j = pid ∧ (db.parts.find? (fun p => p.id == j)).isSome
    · rw [if_pos hj, if_pos hj]
      omega
    · rw [if_neg hj, if_neg hj]

/-- Usage record produced by the C7 witness `addRepairPart` call. -/
def c7u : RepairPart :=
  { id := 2, repair_id := 1, part_id := 5, quantity_used := 2, pricing_mode := "repair",
    unit_price := 50, total_price := ((2 : Int) : Rat) * 50 }

/-- Database state after the C7 witness `addRepairPart` call. -/
def c7db1 : DB := (addRepairPart baseDb 1 5 2 "repair").2

/-- C7 (witness): adding part 5 (quantity 2, repair mode) to repair 1 of
`baseDb` and then removing it restores every quantity and the usage
table. -/
theorem c7_remove_roundtrip_witness :
    latestRepairPart c7db1.repair_parts 1 5 = some c7u ∧
    c7u.quantity_used = 2 ∧
    (removeRepairPart c7db1 1 5).1 = .ok () ∧
    (removeRepairPart c7db1 1 5).2.repair_parts = baseDb.repair_parts ∧
    (∀ k, quantityOf (removeRepairPart c7db1 1 5).2 k = quantityOf baseDb k) :=
  c7_remove_roundtrip baseDb 1 5 2 "repair" c7u c7db1 (by decide) rfl

theorem cartPrecheck_fails (db : DB) :
    ∀ (items : List CartItem),
      (∃ it ∈ items, ∀ a, findAccessory db it.accessory_id = some a →
        a.quantity < it.quantity) →
      ∃ msg code, cartPrecheck db items = some (.err msg code, db) := by
  intro items
  induction items with
  | nil =>
    rintro ⟨it, hmem, _⟩
    cases hmem
  | cons it rest ih =>
    rintro ⟨w, hwmem, hw⟩
    unfold cartPrecheck
    cases hfa : findAccessory db it.accessory_id with
    | none =>
      simp only [hfa]
      exact ⟨_, _, rfl⟩
    | some a =>
      simp only [hfa]
      by_cases hins : a.quantity < it.quantity
      · rw [if_pos hins]
        exact ⟨_, _, rfl⟩
      · rw [if_neg hins]
        rcases List.mem_cons.mp hwmem with heq | hwr
        · exact absurd (hw a (heq ▸ hfa)) (heq ▸ hins)
        · exact ih ⟨w, hwr, hw⟩

/-- C5: for every accessory-cart bill request in which some cart line's
accessory does not exist or has insufficient stock (judged against the
current state), the whole operation fails and the database is completely
unchanged: no bill, no bill item, no accessory sale, and no quantity
change — the pre-check pass over the whole cart runs before any
mutation. -/
theorem c5_cart_precheck (db : DB) (cid : Nat) (items : List CartItem) (tax : Rat) (uid : Nat)
    (hbad : ∃ it ∈ items, ∀ a, findAccessory db it.accessory_id = some a →
      a.quantity < it.quantity) :
    (createAccessoryBill db cid items tax uid).2 = db ∧
    ∃ msg code, (createAccessoryBill db cid items tax uid).1 = .err msg code := by
  unfold createAccessoryBill
  by_cases hv : cid = 0 ∨ items = []
  · rw [if_pos hv]
    exact ⟨rfl, _, _, rfl⟩
  · rw [if_neg hv]
    by_cases hc : ¬ db.customers.contains cid
    · rw [if_pos hc]
      exact ⟨rfl, _, _, rfl⟩
    · rw [if_neg hc]
      obtain ⟨msg, code, hpre⟩ := cartPrecheck_fails db items hbad
      simp only [hpre]
      exact ⟨by trivial, _, _, rfl⟩

/-- C5 (witness): a two-line cart on `baseDb` whose second line requests
100 units of accessory 1 (stock 20): the whole operation fails and the
state is unchanged. -/
theorem c5_cart_precheck_witness :
    (createAccessoryBill baseDb 1 [⟨1, 5⟩, ⟨1, 100⟩] 0 1).2 = baseDb ∧
    ∃ msg code, (createAccessoryBill baseDb 1 [⟨1, 5⟩, ⟨1, 100⟩] 0 1).1 = .err msg code :=
  c5_cart_precheck baseDb 1 [⟨1, 5⟩, ⟨1, 100⟩] 0 1
    ⟨⟨1, 100⟩, by decide, by
      intro a ha
      have ha' : some ({ id := 1, name := "cable", quantity := 20, price := 15 } : Accessory) =
          some a := ha
      rw [← Option.some.inj ha']
      decide⟩

/-- Database state after the C8 scenario's `addRepairPart` call on
`baseDb` (part 5: repair_price 50, sealing_price 80, quantity 10). -/
def c8db1 : DB := (addRepairPart baseDb 1 5 2 "repair").2

/-- C8: the concrete pricing-snapshot scenario.  `addRepairPart` with
quantity 2 in `repair` mode records a usage with unit_price 50 (the repair
price at recording time, not the sealing price) and total_price 100 and
leaves the part's quantity at 8; generating the bill from that completed
repair with tax_rate 8.5 yields subtotal 100, tax_amount 8.5 and
total_amount 108.5. -/
theorem c8_pricing_scenario :
    (addRepairPart baseDb 1 5 2 "repair").1 =
      .ok { id := 2, repair_id := 1, part_id := 5, quantity_used := 2,
            pricing_mode := "repair", unit_price := 50, total_price := 100 } ∧
    quantityOf c8db1 (.part 5) = 8 ∧
    (generateBillFromRepairResolved c8db1 1 (8.5 : Rat) 1).1 =
      .ok { id := 3, repair_id := some 1, customer_id := 1, subtotal := 100,
            tax_amount := (8.5 : Rat), total_amount := (108.5 : Rat),
            payment_status := "pending", created_by := 1 } := by
  refine ⟨?_, by decide, ?_⟩
  · simp [addRepairPart, baseDb, findRepair, findPart]
    norm_num
  · simp [generateBillFromRepairResolved, c8db1, addRepairPart, baseDb,
      findRepairWithCustomer, findRepair, findPart, repairPartsOf, hasBillFor,
      updatePartQty, List.find?, List.filter, List.any]
    norm_num

/-- Sum of the `total_price` column over a bill's items
(`SELECT ... FROM bill_items WHERE bill_id = ?`). -/
def billItemsTotal (db : DB) (billId : Nat) : Rat :=
  ((db.bill_items.filter (fun bi => bi.bill_id == billId)).map
    (fun bi => bi.total_price)).sum

theorem cartSubtotal_updateAccQty (l : List Accessory) (i : Nat) (f : Int → Int) :
    ∀ items, cartSubtotal (updateAccQty l i f) items = cartSubtotal l items := by
  intro items
  induction items with
  | nil => rfl
  | cons it rest ih =>
    unfold cartSubtotal
    rw [find?_updateAccQty, ih]
    cases l.find? (fun a => a.id == it.accessory_id) with
    | none => rfl
    | some a => by_cases h : a.id = i <;> simp [h]

theorem cartMutate_totals (billId uid : Nat) :
    ∀ (items : List CartItem) (db db' : DB) (s : Rat),
      cartMutate billId uid db items = some db' →
      cartSubtotal db.accessories items = some s →
      billItemsTotal db' billId = billItemsTotal db billId + s := by
  intro items
  induction items with
  | nil =>
    intro db db' s h hs
    cases h
    cases hs
    simp
  | cons it rest ih =>
    intro db db' s h hs
    unfold cartMutate at h
    cases hstep : cartMutateStep billId uid db it with
    | none => rw [hstep] at h; cases h
    | some db1 =>
      rw [hstep] at h
      unfold cartMutateStep at hstep
      cases hfa : findAccessory db it.accessory_id with
      | none => simp only [hfa] at hstep; cases hstep
      | some a =>
        simp only [hfa] at hstep
        have hdb1 : db1 = { db with
            bill_items := db.bill_items ++
              [{ id := db.nextId, bill_id := billId, item_type := "accessory",
                 item_id := it.accessory_id, quantity := it.quantity, unit_price := a.price,
                 total_price := a.price * (it.quantity : Rat), pricing_mode := none }]
            accessory_sales := db.accessory_sales ++
              [{ id := db.nextId + 1, accessory_id := it.accessory_id,
                 quantity_sold := it.quantity, unit_price := a.price,
                 total_price := a.price * (it.quantity : Rat), sold_by := uid }]
            accessories := updateAccQty db.accessories it.accessory_id
              (fun q => q - it.quantity)
            nextId := db.nextId + 2 } := (Option.some.inj hstep).symm
        unfold cartSubtotal at hs
        rw [show db.accessories.find? (fun a => a.id == it.accessory_id) = some a from hfa] at hs
        cases hrest : cartSubtotal db.accessories rest with
        | none => rw [hrest] at hs; cases hs
        | some s' =>
          rw [hrest] at hs
          have hs' : s = a.price * (it.quantity : Rat) + s' := (Option.some.inj hs).symm
          have hsub1 : cartSubtotal db1.accessories rest = some s' := by
            rw [hdb1]
            show cartSubtotal (updateAccQty db.accessories it.accessory_id
              (fun q => q - it.quantity)) rest = some s'
            rw [cartSubtotal_updateAccQty]
            exact hrest
          have hstep_total : billItemsTotal db1 billId =
              billItemsTotal db billId + a.price * (it.quantity : Rat) := by
            rw [hdb1]
            unfold billItemsTotal
            rw [List.filter_append]
            simp
          rw [ih db1 db' s' h hsub1, hstep_total, hs']
          ring

/-- The bill item created from one usage row by the from-repair path. -/
def usageItem (base billId : Nat) (p : Nat × RepairPart) : BillItem :=
  { id := base + p.1, bill_id := billId, item_type := "part", item_id := p.2.part_id,
    quantity := p.2.quantity_used, unit_price := p.2.unit_price,
    total_price := p.2.total_price, pricing_mode := some p.2.pricing_mode }

theorem generateBill_ok (db : DB) (rid : Nat) (tax : Rat) (uid : Nat) (bill : Bill) (db' : DB)
    (h : generateBillFromRepairResolved db rid tax uid = (.ok bill, db')) :
    ∃ r, findRepairWithCustomer db rid = some r ∧
      bill = { id := db.nextId, repair_id := some rid, customer_id := r.customer_id,
               subtotal := ((repairPartsOf db rid).map (fun rp => rp.total_price)).sum,
               tax_amount := ((repairPartsOf db rid).map (fun rp => rp.total_price)).sum *
                 (tax / 100),
               total_amount := ((repairPartsOf db rid).map (fun rp => rp.total_price)).sum +
                 ((repairPartsOf db rid).map (fun rp => rp.total_price)).sum * (tax / 100),
               payment_status := "pending", created_by := uid } ∧
      db' = { db with
          bills := db.bills ++ [bill]
          bill_items := db.bill_items ++
            ((repairPartsOf db rid).enum.map (usageItem (db.nextId + 1) db.nextId))
          nextId := db.nextId + 1 + (repairPartsOf db rid).length } := by
  unfold generateBillFromRepairResolved at h
  cases hr : findRepairWithCustomer db rid with
  | none =>
    simp only [hr] at h
    exact absurd h (by simp)
  | some r =>
    simp only [hr] at h
    by_cases hst : r.status ≠ "completed"
    · rw [if_pos hst] at h
      exact absurd h (by simp)
    · rw [if_neg hst] at h
      by_cases hbf : hasBillFor db rid
      · rw [if_pos hbf] at h
        exact absurd h (by simp)
      · rw [if_neg hbf] at h
        by_cases hemp : repairPartsOf db rid = []
        · rw [if_pos hemp] at h
          exact absurd h (by simp)
        · rw [if_neg hemp] at h
          have h1 := congrArg Prod.fst h
          have h2 := congrArg Prod.snd h
          simp only at h1 h2
          have hbill := ApiResult.ok.inj h1
          refine ⟨r, rfl, hbill.symm, ?_⟩
          rw [← hbill]
          exact h2.symm

theorem enumItems_total (l : List RepairPart) (base billId : Nat) :
    ((l.enum.map (usageItem base billId)).map (fun bi => bi.total_price)).sum =
      (l.map (fun rp => rp.total_price)).sum := by
  rw [List.map_map]
  have h1 : ((fun bi : BillItem => bi.total_price) ∘ usageItem base billId) =
      ((fun rp : RepairPart => rp.total_price) ∘ Prod.snd) := rfl
  rw [h1, ← List.map_map, List.enum_map_snd]

theorem filter_enumItems (l : List RepairPart) (base billId : Nat) :
    (l.enum.map (usageItem base billId)).filter (fun bi => bi.bill_id == billId) =
      l.enum.map (usageItem base billId) := by
  rw [List.filter_eq_self]
  intro bi hbi
  simp only [List.mem_map] at hbi
  obtain ⟨p, _, rfl⟩ := hbi
  simp [usageItem]

theorem createAccessoryBill_ok (db : DB) (cid : Nat) (items : List CartItem) (tax : Rat)
    (uid : Nat) (bill : Bill) (db' : DB)
    (h : createAccessoryBill db cid items tax uid = (.ok bill, db')) :
    ∃ s, cartSubtotal db.accessories items = some s ∧
      bill = { id := db.nextId, repair_id := none, customer_id := cid, subtotal := s,
               tax_amount := s * (tax / 100), total_amount := s + s * (tax / 100),
               payment_status := "pending", created_by := uid } ∧
      cartMutate db.nextId uid
        { db with bills := db.bills ++ [bill], nextId := db.nextId + 1 } items = some db' := by
  unfold createAccessoryBill at h
  by_cases hv : cid = 0 ∨ items = []
  · rw [if_pos hv] at h
    exact absurd h (by simp)
  · rw [if_neg hv] at h
    by_cases hc : ¬ db.customers.contains cid
    · rw [if_pos hc] at h
      exact absurd h (by simp)
    · rw [if_neg hc] at h
      cases hpre : cartPrecheck db items with
      | some e =>
        simp only [hpre] at h
        obtain ⟨_, ⟨msg, code, herr⟩⟩ := cartPrecheck_some db items e hpre
        rw [h] at herr
        simp at herr
      | none =>
        simp only [hpre] at h
        cases hsub : cartSubtotal db.accessories items with
        | none =>
          simp only [hsub] at h
          exact absurd h (by simp)
        | some s =>
          simp only [hsub] at h
          cases hmut : cartMutate db.nextId uid
              { db with
                  bills := db.bills ++
                    [{ id := db.nextId, repair_id := none, customer_id := cid,
                       subtotal := s, tax_amount := s * (tax / 100),
                       total_amount := s + s * (tax / 100),
                       payment_status := "pending", created_by := uid }]
                  nextId := db.nextId + 1 } items with
          | none =>
            rw [hmut] at h
            exact absurd h (by simp)
          | some db2 =>
            rw [hmut] at h
            have h1 := congrArg Prod.fst h
            have h2 := congrArg Prod.snd h
            simp only at h1 h2
            have hbill := ApiResult.ok.inj h1
            refine ⟨s, rfl, hbill.symm, ?_⟩
            rw [← hbill, hmut, h2]

/-- C4 (amended): for every bill produced by either construction path,
subtotal equals the sum of its bill items' total_price, tax_amount equals
subtotal × (tax_rate/100) EXACTLY — the code applies no rounding to the
currency's smallest unit — and total_amount equals subtotal + tax_amount.
(The hypothesis that no pre-existing bill item carries the next row id is
the AUTOINCREMENT freshness of the id space.) -/
theorem c4_totals :
    (∀ (db : DB) (rid : Nat) (tax : Rat) (uid : Nat) (bill : Bill) (db' : DB),
      (∀ bi ∈ db.bill_items, bi.bill_id ≠ db.nextId) →
      generateBillFromRepairResolved db rid tax uid = (.ok bill, db') →
      bill.subtotal = billItemsTotal db' bill.id ∧
      bill.tax_amount = bill.subtotal * (tax / 100) ∧
      bill.total_amount = bill.subtotal + bill.tax_amount) ∧
    (∀ (db : DB) (cid : Nat) (items : List CartItem) (tax : Rat) (uid : Nat)
        (bill : Bill) (db' : DB),
      (∀ bi ∈ db.bill_items, bi.bill_id ≠ db.nextId) →
      createAccessoryBill db cid items tax uid = (.ok bill, db') →
      bill.subtotal = billItemsTotal db' bill.id ∧
      bill.tax_amount = bill.subtotal * (tax / 100) ∧
      bill.total_amount = bill.subtotal + bill.tax_amount) := by
  constructor
  · intro db rid tax uid bill db' hfresh heq
    obtain ⟨r, hr, hbill, hdb'⟩ := generateBill_ok db rid tax uid bill db' heq
    subst hbill
    subst hdb'
    refine ⟨?_, rfl, rfl⟩
    show ((repairPartsOf db rid).map (fun rp => rp.total_price)).sum = _
    unfold billItemsTotal
    simp only [List.filter_append]
    have hold : db.bill_items.filter (fun bi => bi.bill_id == db.nextId) = [] := by
      rw [List.filter_eq_nil_iff]
      intro bi hbi hbieq
      exact hfresh bi hbi (by simpa using hbieq)
    rw [hold, filter_enumItems, List.nil_append, enumItems_total]
  · intro db cid items tax uid bill db' hfresh heq
    obtain ⟨s, hsub, hbill, hmut⟩ := createAccessoryBill_ok db cid items tax uid bill db' heq
    subst hbill
    refine ⟨?_, rfl, rfl⟩
    have htot := cartMutate_totals db.nextId uid items _ db' s hmut hsub
    have hold : billItemsTotal
        { db with
            bills := db.bills ++
              [{ id := db.nextId, repair_id := none, customer_id := cid,
                 subtotal := s, tax_amount := s * (tax / 100),
                 total_amount := s + s * (tax / 100),
                 payment_status := "pending", created_by := uid }]
            nextId := db.nextId + 1 } db.nextId = 0 := by
      unfold billItemsTotal
      have : db.bill_items.filter (fun bi => bi.bill_id == db.nextId) = [] := by
        rw [List.filter_eq_nil_iff]
        intro bi hbi hbieq
        exact hfresh bi hbi (by simpa using hbieq)
      rw [show ({ db with
            bills := db.bills ++
              [{ id := db.nextId, repair_id := none, customer_id := cid,
                 subtotal := s, tax_amount := s * (tax / 100),
                 total_amount := s + s * (tax / 100),
                 payment_status := "pending", created_by := uid }]
            nextId := db.nextId + 1 } : DB).bill_items = db.bill_items from rfl, this]
      rfl
    show s = billItemsTotal db' db.nextId
    rw [htot, hold, zero_add]

/-- Concrete database for the C4 counterexample and cart-path witness: one
customer (9) and one accessory priced at 0.50. -/
def c4xDb : DB :=
  { customers := [9]
    parts := []
    accessories := [{ id := 2, name := "case", quantity := 3, price := 1/2 }]
    repairs := []
    repair_parts := []
    accessory_sales := []
    bills := []
    bill_items := []
    nextId := 4 }

/-- The bill the C4 counterexample run produces, written with the exact
unreduced arithmetic the handler computes. -/
def c4xBillRaw : Bill :=
  { id := 4, repair_id := none, customer_id := 9,
    subtotal := (1/2 : Rat) * ((1 : Int) : Rat) + 0,
    tax_amount := ((1/2 : Rat) * ((1 : Int) : Rat) + 0) * ((3 : Rat) / 100),
    total_amount := ((1/2 : Rat) * ((1 : Int) : Rat) + 0) +
      ((1/2 : Rat) * ((1 : Int) : Rat) + 0) * ((3 : Rat) / 100),
    payment_status := "pending", created_by := 1 }

/-- The bill stored by the C4 counterexample run (the fallback record is
unreachable). -/
def c4xBill : Bill :=
  match (createAccessoryBill c4xDb 9 [{ accessory_id := 2, quantity := 1 }] 3 1).1 with
  | .ok b => b
  | .err _ _ => { id := 0, repair_id := none, customer_id := 0, subtotal := 0,
                  tax_amount := 0, total_amount := 0, payment_status := "", created_by := 0 }

/-- C4 (counterexample): a cart bill over one accessory priced 0.50 with
tax_rate 3 stores tax_amount = 0.015, which is not a whole number of the
currency's smallest unit (0.01) although the subtotal is — the code
stores `subtotal * (tax_rate/100)` with no rounding, so the claim's
"rounded consistently with the currency's smallest unit" is false at this
input. -/
theorem c4_counterexample :
    c4xBill.subtotal = 1/2 ∧ c4xBill.tax_amount = 3/200 ∧
    (c4xBill.subtotal * 100).den = 1 ∧ (c4xBill.tax_amount * 100).den ≠ 1 := by
  have hrun : (createAccessoryBill c4xDb 9 [{ accessory_id := 2, quantity := 1 }] 3 1).1 =
      .ok c4xBillRaw := rfl
  have h1 : c4xBill = c4xBillRaw := by
    unfold c4xBill
    rw [hrun]
  rw [h1]
  unfold c4xBillRaw
  norm_num

/-- The bill the C4 witness from-repair run produces, written with the
exact unreduced arithmetic the handler computes. -/
def c4wBillRepair : Bill :=
  { id := 3, repair_id := some 1, customer_id := 1,
    subtotal := ((repairPartsOf c8db1 1).map (fun rp => rp.total_price)).sum,
    tax_amount := ((repairPartsOf c8db1 1).map (fun rp => rp.total_price)).sum *
      ((17/2 : Rat) / 100),
    total_amount := ((repairPartsOf c8db1 1).map (fun rp => rp.total_price)).sum +
      ((repairPartsOf c8db1 1).map (fun rp => rp.total_price)).sum * ((17/2 : Rat) / 100),
    payment_status := "pending", created_by := 1 }

/-- C4 (witness): the amended totals theorem applied to the concrete
from-repair run on `c8db1` and the concrete cart run on `c4xDb`. -/
theorem c4_totals_witness :
    (c4wBillRepair.subtotal =
        billItemsTotal (generateBillFromRepairResolved c8db1 1 (17/2) 1).2 c4wBillRepair.id ∧
      c4wBillRepair.tax_amount = c4wBillRepair.subtotal * ((17/2) / 100) ∧
      c4wBillRepair.total_amount = c4wBillRepair.subtotal + c4wBillRepair.tax_amount) ∧
    (c4xBillRaw.subtotal =
        billItemsTotal
          (createAccessoryBill c4xDb 9 [{ accessory_id := 2, quantity := 1 }] 3 1).2
          c4xBillRaw.id ∧
      c4xBillRaw.tax_amount = c4xBillRaw.subtotal * (3 / 100) ∧
      c4xBillRaw.total_amount = c4xBillRaw.subtotal + c4xBillRaw.tax_amount) :=
  ⟨c4_totals.1 c8db1 1 (17/2) 1 c4wBillRepair
      (generateBillFromRepairResolved c8db1 1 (17/2) 1).2 (by decide) rfl,
   c4_totals.2 c4xDb 9 [{ accessory_id := 2, quantity := 1 }] 3 1 c4xBillRaw
      (createAccessoryBill c4xDb 9 [{ accessory_id := 2, quantity := 1 }] 3 1).2
      (by decide) rfl⟩

end TechClinc
